import Mathlib

/- Formal model of the slush-fund detection engine
   (detectors, orchestrator, prioritizer, reporter)
   together with proofs of its behavioural properties. -/

set_option linter.unusedVariables false

/-! ## Executable rational arithmetic

The library's `Rat` addition, multiplication, inverse and scientific literals
are irreducible, which blocks evaluation by `decide`.  The detectors below
therefore use the following thin wrappers, built from `mkRat` (which does
reduce); each wrapper is proved equal to the corresponding field operation on
`ℚ`, so symbolic reasoning can switch to ordinary rational arithmetic. -/

/-- The rational `n / d` in an evaluable form. -/
def qmk (n : Int) (d : Nat) : ℚ := mkRat n d

/-- A natural number as a rational, in an evaluable form. -/
def qnat (n : Nat) : ℚ := mkRat n 1

/-- Evaluable addition on `ℚ`. -/
def qadd (a b : ℚ) : ℚ := mkRat (a.num * b.den + b.num * a.den) (a.den * b.den)

/-- Evaluable subtraction on `ℚ`. -/
def qsub (a b : ℚ) : ℚ := mkRat (a.num * b.den - b.num * a.den) (a.den * b.den)

/-- Evaluable multiplication on `ℚ`. -/
def qmul (a b : ℚ) : ℚ := mkRat (a.num * b.num) (a.den * b.den)

/-- Evaluable inverse on `ℚ` (with `qinv 0 = 0`, as for `Rat.inv`). -/
def qinv (b : ℚ) : ℚ :=
  mkRat (if b.num < 0 then -(b.den : Int) else (b.den : Int)) b.num.natAbs

/-- Evaluable division on `ℚ` (with `qdiv a 0 = 0`, as for `Rat.div`). -/
def qdiv (a b : ℚ) : ℚ := qmul a (qinv b)

/-- Evaluable sum of a list of rationals. -/
def qsum (l : List ℚ) : ℚ := l.foldr qadd 0

theorem qmk_eq (n : Int) (d : Nat) : qmk n d = (n : ℚ) / (d : ℚ) := by
  simp [qmk, Rat.mkRat_eq_div]

theorem qnat_eq (n : Nat) : qnat n = (n : ℚ) := by
  simp [qnat, Rat.mkRat_eq_div]

theorem qmul_eq (a b : ℚ) : qmul a b = a * b := by
  conv_rhs => rw [← Rat.num_div_den a, ← Rat.num_div_den b]
  rw [div_mul_div_comm, qmul, Rat.mkRat_eq_div]
  push_cast
  rfl

theorem qadd_eq (a b : ℚ) : qadd a b = a + b := by
  conv_rhs => rw [← Rat.num_div_den a, ← Rat.num_div_den b]
  rw [div_add_div _ _ (by exact_mod_cast a.den_nz) (by exact_mod_cast b.den_nz),
    qadd, Rat.mkRat_eq_div]
  push_cast
  ring_nf

theorem qsub_eq (a b : ℚ) : qsub a b = a - b := by
  conv_rhs => rw [← Rat.num_div_den a, ← Rat.num_div_den b]
  rw [div_sub_div _ _ (by exact_mod_cast a.den_nz) (by exact_mod_cast b.den_nz),
    qsub, Rat.mkRat_eq_div]
  push_cast
  ring_nf

theorem qinv_eq (b : ℚ) : qinv b = b⁻¹ := by
  rw [Rat.inv_def', Rat.divInt_eq_div, qinv, Rat.mkRat_eq_div]
  rcases lt_or_le b.num 0 with h | h
  · rw [if_pos h, Int.cast_natAbs, abs_of_neg h]
    push_cast
    rw [neg_div_neg_eq]
  · rw [if_neg (not_lt.mpr h), Int.cast_natAbs, abs_of_nonneg h]

theorem qdiv_eq (a b : ℚ) : qdiv a b = a / b := by
  rw [qdiv, qmul_eq, qinv_eq, div_eq_mul_inv]

theorem qsum_eq (l : List ℚ) : qsum l = l.sum := by
  induction l with
  | nil => rfl
  | cons x xs ih => rw [qsum, List.foldr, ← qsum, ih, qadd_eq, List.sum_cons]

/-! ## String helpers

`String.toLower` and `String.splitOn` do not reduce in the kernel, so
case-insensitive substring matching is implemented over character lists. -/

/-- Lower-case a string (character-wise, as Python lower() does on ASCII). -/
def lowerStr (s : String) : String := String.mk (s.data.map Char.toLower)

/-- Does the character list `sub` occur inside `l`? -/
def containsList (l sub : List Char) : Bool :=
  match l with
  | [] => sub.isEmpty
  | _ :: t => sub.isPrefixOf l || containsList t sub

/-- Does the string `t` occur inside `s` (case-sensitive)? -/
def containsSub (s t : String) : Bool := containsList s.data t.data

/-! ## Number formatting

Models Python format specifiers used by the source: fixed-point `:.Nf` with
banker's rounding, thousands separators `:,`, and percentages `:.2%`. -/

/-- Round to the nearest integer, ties to even (Python's rounding of floats
whose value is exactly representable). -/
def roundHalfEven (q : ℚ) : Int :=
  let f := q.floor
  let r := qsub q (qmk f 1)
  if qmk 1 2 < r then f + 1
  else if r < qmk 1 2 then f
  else if f % 2 = 0 then f else f + 1

/-- Insert a comma after every third character, counting from the head of an
already reversed digit list. -/
def commaRev : List Char → List Char
  | a :: b :: c :: d :: rest => a :: b :: c :: ',' :: commaRev (d :: rest)
  | l => l

/-- Decimal digits of a natural number with thousands separators. -/
def natWithCommas (n : Nat) : String :=
  String.mk ((commaRev (toString n).data.reverse).reverse)

/-- Pad a digit string on the left with zeros up to length `len`. -/
def padZeros (s : String) (len : Nat) : String :=
  String.mk (List.replicate (len - s.length) '0') ++ s

/-- Render a scaled integer `n` (numerator of `value * 10 ^ prec`) with `prec`
decimal places, using `intFmt` for the integer part. -/
def fmtParts (n : Int) (prec : Nat) (intFmt : Nat → String) : String :=
  let sign := if n < 0 then "-" else ""
  let m := n.natAbs
  if prec = 0 then sign ++ intFmt m
  else sign ++ intFmt (m / 10 ^ prec) ++ "." ++ padZeros (toString (m % 10 ^ prec)) prec

/-- Python `f"{q:.{prec}f}"`. -/
def fmtFixed (q : ℚ) (prec : Nat) : String :=
  fmtParts (roundHalfEven (qmul q (qnat (10 ^ prec)))) prec toString

/-- Python `f"{q:,.{prec}f}"`. -/
def fmtComma (q : ℚ) (prec : Nat) : String :=
  fmtParts (roundHalfEven (qmul q (qnat (10 ^ prec)))) prec natWithCommas

/-- Python `f"{q:.2%}"`. -/
def fmtPercent2 (q : ℚ) : String := fmtFixed (qmul q (qnat 100)) 2 ++ "%"

/-! ## Data model -/

/-- Ordered severity scale; the numeric ranks are part of the sort contract. -/
inductive RiskLevel where
  | LOW
  | MEDIUM
  | HIGH
  | CRITICAL
deriving DecidableEq, Repr

/-- Numeric rank of a risk level (LOW=1, MEDIUM=2, HIGH=3, CRITICAL=4). -/
def RiskLevel.value : RiskLevel → Nat
  | .LOW => 1
  | .MEDIUM => 2
  | .HIGH => 3
  | .CRITICAL => 4

/-- Display name of a risk level, as used by the report section headers. -/
def RiskLevel.levelName : RiskLevel → String
  | .LOW => "LOW"
  | .MEDIUM => "MEDIUM"
  | .HIGH => "HIGH"
  | .CRITICAL => "CRITICAL"

/-- Calendar date of a transaction (the source parses the date column with
pandas; here dates are already structured values). -/
structure Date where
  year : Nat
  month : Nat
  day : Nat
deriving DecidableEq, Repr

/-- One transaction row.  Monetary amounts are modelled as exact rationals. -/
structure Row where
  date : Date
  amount : ℚ
  description : String
  counterparty : String
  transaction_type : String
deriving DecidableEq, Repr

/-- The transaction table: the rows plus, for each named column the detectors
touch, a flag saying whether that column is present in the frame.  `extraCols`
records names of derived columns written into the shared frame by detectors
(their values are functions of `date`, so only presence is tracked). -/
structure DataFrame where
  rows : List Row
  hasAmount : Bool
  hasDate : Bool
  hasDescription : Bool
  hasCounterparty : Bool
  hasTransactionType : Bool
  extraCols : List String
deriving DecidableEq, Repr

/-- A structured finding emitted by a detector.  `timestamp` models the
wall-clock reading taken at alert construction time. -/
structure Alert where
  account_id : String
  alert_type : String
  risk_level : RiskLevel
  confidence_score : ℚ
  description : String
  evidence : List String
  timestamp : Nat
  amount_involved : ℚ
deriving DecidableEq, Repr

deriving instance DecidableEq for Except

/-- Selecting the amount column, as the source's unguarded column accesses do:
a KeyError is raised when the column is absent. -/
def DataFrame.amountCol (df : DataFrame) : Except String (List ℚ) :=
  if df.hasAmount then .ok (df.rows.map Row.amount) else .error "KeyError: amount"

/-- Sum of the amounts of a list of rows. -/
def sumAmounts (l : List Row) : ℚ := qsum (l.map Row.amount)

/-- Civil date to days since the Unix epoch (standard era-based algorithm,
matching the day arithmetic pandas performs on timestamps). -/
def dateToDays (dt : Date) : Int :=
  let y : Int := if dt.month ≤ 2 then (dt.year : Int) - 1 else (dt.year : Int)
  let era : Int := (if 0 ≤ y then y else y - 399) / 400
  let yoe : Int := y - era * 400
  let mp : Int := ((dt.month : Int) + 9) % 12
  let doy : Int := (153 * mp + 2) / 5 + (dt.day : Int) - 1
  let doe : Int := yoe * 365 + yoe / 4 - yoe / 100 + doy
  era * 146097 + doe - 719468

/-- First-occurrence deduplication, matching the order pandas groupby and
value_counts expose for this model. -/
def uniqueFirst {α : Type} [DecidableEq α] (l : List α) : List α :=
  l.foldl (fun acc x => if x ∈ acc then acc else acc ++ [x]) []

/-! ## Detectors

Each `detect_*` function is a direct translation of the corresponding method
of `SlushFundDetector`.  Fallible pandas column accesses become `Except`;
detectors that assign derived columns into the shared frame return the updated
frame alongside their alerts.  `now` models the `datetime.now()` reading used
when an alert is constructed. -/

/-- The fixed vocabulary of vague/discretionary description keywords. -/
def suspicious_keywords : List String :=
  ["consulting", "advisory", "services", "misc", "miscellaneous",
   "general", "expenses", "petty cash", "discretionary", "contingency",
   "emergency", "special projects", "undefined", "various",
   "entertainment", "representation", "goodwill", "hospitality"]

/-- High-risk industry labels held by the detector (configuration data; not
consulted by any detection method). -/
def high_risk_industries : List String :=
  ["consulting", "advisory services", "shell companies",
   "offshore entities", "holding companies"]

/-- A transaction amount is round when `amount % 100 == 0 or amount % 50 == 0`,
i.e. when dividing by 100 or by 50 leaves an integer. -/
def isRound (x : ℚ) : Bool :=
  decide ((qdiv x (qnat 100)).den = 1) || decide ((qdiv x (qnat 50)).den = 1)

/-- The rows selected by `df[df[\x27amount\x27].apply(...)]` in the
round-number detector. -/
def roundTxns (df : DataFrame) : List Row := df.rows.filter (fun r => isRound r.amount)

/-- Round-number pattern detector (`detect_round_number_patterns`). -/
def detect_round_number_patterns (df : DataFrame) (account_id : String) (now : Nat) :
    Except String (List Alert) :=
  match df.amountCol with
  | .error e => .error e
  | .ok _ =>
    let round_numbers := roundTxns df
    let total_transactions := df.rows.length
    if total_transactions > 10 then
      let round_percentage := qdiv (qnat round_numbers.length) (qnat total_transactions)
      if round_percentage > qmk 6 10 then
        .ok [{ account_id := account_id,
               alert_type := "Round Number Pattern",
               risk_level := if round_percentage < qmk 8 10 then RiskLevel.MEDIUM else RiskLevel.HIGH,
               confidence_score := min (qmul round_percentage (qnat 100)) (qnat 95),
               description := "Unusually high percentage of round-number transactions",
               evidence := [toString round_numbers.length ++ " out of " ++
               toString total_transactions ++ " transactions are round numbers",
               "Round number percentage: " ++ fmtPercent2 round_percentage],
               timestamp := now,
               amount_involved := sumAmounts round_numbers }]
      else .ok []
    else .ok []

/-- Rows whose description matches the keyword vocabulary (the source's
case-insensitive regex alternation membership test). -/
def vagueTxns (df : DataFrame) : List Row :=
  df.rows.filter (fun r => suspicious_keywords.any (fun kw => containsSub (lowerStr r.description) kw))

/-- First vocabulary keyword occurring in a description (deterministic stand-in
for the source's regex extract; the exact keyword chosen differs only in
evidence text, and the source's set iteration order is hash-dependent anyway). -/
def firstKeyword (s : String) : Option String :=
  suspicious_keywords.find? (fun kw => containsSub (lowerStr s) kw)

/-- Occurrence counts of each distinct description, in first-occurrence order. -/
def descriptionCounts (df : DataFrame) : List (String × Nat) :=
  (uniqueFirst (df.rows.map Row.description)).map
    (fun d => (d, (df.rows.filter (fun r => decide (r.description = d))).length))

/-- Stable insertion (descending by count) for the value_counts model. -/
def insertCountDesc (x : String × Nat) : List (String × Nat) → List (String × Nat)
  | [] => [x]
  | y :: ys => if y.2 ≤ x.2 then x :: y :: ys else y :: insertCountDesc x ys

/-- Stable descending sort by count (models pandas value_counts ordering). -/
def sortCountsDesc (l : List (String × Nat)) : List (String × Nat) := l.foldr insertCountDesc []

/-- Suspicious description detector (`detect_suspicious_descriptions`). -/
def detect_suspicious_descriptions (df : DataFrame) (account_id : String) (now : Nat) :
    Except String (List Alert) :=
  if df.hasDescription then
    let vague_descriptions := vagueTxns df
    let alerts1 : Except String (List Alert) :=
      if qnat vague_descriptions.length > qmul (qnat df.rows.length) (qmk 3 10) then
        match df.amountCol with
        | .error e => .error e
        | .ok _ => .ok [{ account_id := account_id,
                          alert_type := "Vague Transaction Descriptions",
                          risk_level := RiskLevel.MEDIUM,
                          confidence_score := qnat 75,
                          description := "High frequency of vague or generic transaction descriptions",
                          evidence := [
                          "Found " ++ toString vague_descriptions.length ++ " transactions with vague descriptions",
                          "Common suspicious keywords: " ++ String.intercalate ", "
                          (uniqueFirst (vague_descriptions.filterMap (fun r => firstKeyword r.description)))],
                          timestamp := now,
                          amount_involved := sumAmounts vague_descriptions }]
      else .ok []
    match alerts1 with
    | .error e => .error e
    | .ok a1 =>
      let repeated_descriptions := (sortCountsDesc (descriptionCounts df)).filter (fun p => p.2 > 5)
      let a2 := if repeated_descriptions.length > 0 then
          [{ account_id := account_id,
             alert_type := "Repeated Transaction Descriptions",
             risk_level := RiskLevel.MEDIUM,
             confidence_score := qnat 60,
             description := "Multiple transactions with identical descriptions",
             evidence := (repeated_descriptions.take 5).map (fun p =>
             "Description \x27" ++ p.1 ++ "\x27 appears " ++ toString p.2 ++ " times"),
             timestamp := now,
             amount_involved := 0 }]
        else []
      .ok (a1 ++ a2)
  else .ok []

/-- The fixed ordered list of reporting thresholds. -/
def thresholds : List Nat := [10000, 5000, 3000, 1000]

/-- Rows with amount in `[0.9 * threshold, threshold)`. -/
def near_threshold_txns (df : DataFrame) (threshold : Nat) : List Row :=
  df.rows.filter (fun r =>
    decide (qmul (qnat threshold) (qmk 9 10) ≤ r.amount) && decide (r.amount < qnat threshold))

/-- The loop body of the threshold-avoidance detector for one threshold. -/
def thresholdAlert (df : DataFrame) (account_id : String) (now : Nat) (threshold : Nat) :
    List Alert :=
  let near_threshold := near_threshold_txns df threshold
  if near_threshold.length > 3 then
    [{ account_id := account_id,
       alert_type := "Threshold Avoidance",
       risk_level := if threshold ≥ 10000 then RiskLevel.HIGH else RiskLevel.MEDIUM,
       confidence_score := qnat 80,
       description := "Multiple transactions appear to avoid $" ++ natWithCommas threshold ++
       " reporting threshold",
       evidence := [
       toString near_threshold.length ++ " transactions between $" ++
       fmtComma (qmul (qnat threshold) (qmk 9 10)) 0 ++ " and $" ++ fmtComma (qnat threshold) 0,
       "Average amount: $" ++
       fmtComma (qdiv (sumAmounts near_threshold) (qnat near_threshold.length)) 2],
       timestamp := now,
       amount_involved := sumAmounts near_threshold }]
  else []

/-- Threshold-avoidance detector (`detect_threshold_avoidance`). -/
def detect_threshold_avoidance (df : DataFrame) (account_id : String) (now : Nat) :
    Except String (List Alert) :=
  match df.amountCol with
  | .error e => .error e
  | .ok _ => .ok ((thresholds.map (thresholdAlert df account_id now)).flatten)

/-- Ascending insertion for integer day numbers. -/
def insertIntAsc (x : Int) : List Int → List Int
  | [] => [x]
  | y :: ys => if x ≤ y then x :: y :: ys else y :: insertIntAsc x ys

/-- Sort integer day numbers ascending (`df.sort_values(\x27date\x27)`). -/
def sortIntAsc (l : List Int) : List Int := l.foldr insertIntAsc []

/-- Count entries whose gap to the previous sorted entry is at most one day
(the first entry has a NaN gap and is never counted). -/
def adjWithinOne : List Int → Nat
  | a :: b :: rest => (if b - a ≤ 1 then 1 else 0) + adjWithinOne (b :: rest)
  | _ => 0

/-- Number of rows of the date-sorted frame with `days_since_last <= 1`. -/
def recentActivityCount (df : DataFrame) : Nat :=
  adjWithinOne (sortIntAsc (df.rows.map (fun r => dateToDays r.date)))

/-- Burst-frequency detector (`detect_unusual_frequency_patterns`).  The
`days_since_last` helper column lives on a sorted copy and does not leak; the
date re-parse is the identity on already-parsed dates, so the frame is
returned unchanged. -/
def detect_unusual_frequency_patterns (df : DataFrame) (account_id : String) (now : Nat) :
    Except String (List Alert × DataFrame) :=
  if df.hasDate then
    let recent := recentActivityCount df
    let alerts := if qnat recent > qmul (qnat df.rows.length) (qmk 4 10) then
        [{ account_id := account_id,
           alert_type := "Burst Transaction Pattern",
           risk_level := RiskLevel.MEDIUM,
           confidence_score := qnat 65,
           description := "Unusual concentration of transactions in short time periods",
           evidence := [toString recent ++ " transactions occurred within 1 day of another transaction",
           "Indicates potential burst activity pattern"],
           timestamp := now,
           amount_involved := 0 }]
      else []
    .ok (alerts, df)
  else .ok ([], df)

/-- Column assignment `df[c] = ...` on the shared frame: records presence. -/
def addCol (c : String) (cols : List String) : List String :=
  if c ∈ cols then cols else cols ++ [c]

/-- The end-of-period detector's in-place column assignments
(`df[\x27day_of_month\x27]` and `df[\x27month\x27]`). -/
def eopMutate (df : DataFrame) : DataFrame :=
  { df with extraCols := addCol "month" (addCol "day_of_month" df.extraCols) }

/-- Rows with day-of-month at least 28. -/
def endOfMonthTxns (df : DataFrame) : List Row :=
  df.rows.filter (fun r => decide (r.date.day ≥ 28))

/-- Rows falling in a quarter-end month. -/
def quarterEndTxns (df : DataFrame) : List Row :=
  df.rows.filter (fun r => decide (r.date.month ∈ [3, 6, 9, 12]))

/-- End-of-period detector (`detect_end_of_period_activities`).  Returns the
frame with the two derived columns it writes into the shared table. -/
def detect_end_of_period_activities (df : DataFrame) (account_id : String) (now : Nat) :
    Except String (List Alert × DataFrame) :=
  if df.hasDate then
    let df1 := eopMutate df
    let end_of_month := endOfMonthTxns df1
    let alerts1 : Except String (List Alert) :=
      if qnat end_of_month.length > qmul (qnat df1.rows.length) (qmk 25 100) then
        match df1.amountCol with
        | .error e => .error e
        | .ok _ => .ok [{ account_id := account_id,
                          alert_type := "End-of-Period Clustering",
                          risk_level := RiskLevel.MEDIUM,
                          confidence_score := qnat 70,
                          description := "Unusual concentration of transactions at month-end",
                          evidence := [toString end_of_month.length ++ " transactions occur in last 3 days of month",
                          "End-of-month transaction percentage: " ++
                          fmtPercent2 (qdiv (qnat end_of_month.length) (qnat df1.rows.length))],
                          timestamp := now,
                          amount_involved := sumAmounts end_of_month }]
      else .ok []
    match alerts1 with
    | .error e => .error e
    | .ok a1 =>
      let quarter_ends := quarterEndTxns df1
      let a2 := if qnat quarter_ends.length > qmul (qnat df1.rows.length) (qmk 4 10) then
          [{ account_id := account_id,
             alert_type := "Quarter-End Pattern",
             risk_level := RiskLevel.MEDIUM,
             confidence_score := qnat 65,
             description := "Unusual pattern of quarter-end transactions",
             evidence := ["High concentration of transactions at quarter-ends: " ++
             toString quarter_ends.length ++ " transactions"],
             timestamp := now,
             amount_involved := 0 }]
        else []
      .ok (a1 ++ a2, df1)
  else .ok ([], df)

/-- Total transacted amount per distinct counterparty (groupby-sum, keyed in
first-occurrence order). -/
def counterpartyTotals (df : DataFrame) : List (String × ℚ) :=
  (uniqueFirst (df.rows.map Row.counterparty)).map
    (fun c => (c, sumAmounts (df.rows.filter (fun r => decide (r.counterparty = c)))))

/-- The entry with the largest total (first maximum; which of several tied
maxima pandas exposes after an unstable sort is unspecified). -/
def topByTotal (l : List (String × ℚ)) : Option (String × ℚ) :=
  l.foldl (fun acc p =>
    match acc with
    | none => some p
    | some q => if q.2 < p.2 then some p else some q) none

/-- Counterparty concentration detector (`detect_unusual_counterparties`). -/
def detect_unusual_counterparties (df : DataFrame) (account_id : String) (now : Nat) :
    Except String (List Alert) :=
  if df.hasCounterparty then
    match df.amountCol with
    | .error e => .error e
    | .ok _ =>
      match topByTotal (counterpartyTotals df) with
      | none => .ok []
      | some top =>
        let top_counterparty_share := qdiv top.2 (sumAmounts df.rows)
        if top_counterparty_share > qmk 5 10 then
          .ok [{ account_id := account_id,
                 alert_type := "Counterparty Concentration",
                 risk_level := RiskLevel.HIGH,
                 confidence_score := qnat 80,
                 description := "High concentration of transactions with single counterparty",
                 evidence := [
                 "Top counterparty accounts for " ++ fmtPercent2 top_counterparty_share ++
                 " of total transaction volume",
                 "Counterparty: " ++ top.1],
                 timestamp := now,
                 amount_involved := top.2 }]
        else .ok []
  else .ok []

/-- The case-insensitive cash-like test
(`str.contains(\x27cash|atm|withdrawal\x27, case=False)`). -/
def cashLike (s : String) : Bool :=
  containsSub (lowerStr s) "cash" || containsSub (lowerStr s) "atm" ||
    containsSub (lowerStr s) "withdrawal"

/-- Rows whose type is cash-like. -/
def cashTxns (df : DataFrame) : List Row :=
  df.rows.filter (fun r => cashLike r.transaction_type)

/-- Cash-intensity detector (`detect_cash_intensive_patterns`). -/
def detect_cash_intensive_patterns (df : DataFrame) (account_id : String) (now : Nat) :
    Except String (List Alert) :=
  if df.hasTransactionType then
    let cash_transactions := cashTxns df
    if cash_transactions.length > 0 then
      match df.amountCol with
      | .error e => .error e
      | .ok _ =>
        let cash_percentage := qdiv (qnat cash_transactions.length) (qnat df.rows.length)
        let cash_amount_percentage := qdiv (sumAmounts cash_transactions) (sumAmounts df.rows)
        if cash_percentage > qmk 3 10 ∨ cash_amount_percentage > qmk 4 10 then
          .ok [{ account_id := account_id,
                 alert_type := "High Cash Activity",
                 risk_level := if cash_amount_percentage > qmk 6 10 then RiskLevel.HIGH else RiskLevel.MEDIUM,
                 confidence_score := qnat 75,
                 description := "Unusually high level of cash transactions",
                 evidence := [
                 "Cash transactions: " ++ fmtPercent2 cash_percentage ++ " by count, " ++
                 fmtPercent2 cash_amount_percentage ++ " by amount",
                 "Total cash amount: $" ++ fmtComma (sumAmounts cash_transactions) 2],
                 timestamp := now,
                 amount_involved := sumAmounts cash_transactions }]
        else .ok []
    else .ok []
  else .ok []

/-- Sum of deposit amounts on one calendar day. -/
def depositSumOn (df : DataFrame) (d : Date) : ℚ :=
  sumAmounts (df.rows.filter (fun r =>
    decide (r.date = d) && decide (r.transaction_type = "deposit")))

/-- Sum of withdrawal amounts on one calendar day. -/
def withdrawalSumOn (df : DataFrame) (d : Date) : ℚ :=
  sumAmounts (df.rows.filter (fun r =>
    decide (r.date = d) && decide (r.transaction_type = "withdrawal")))

/-- The distinct calendar days of the frame (the index of the source's
day-by-type pivot). -/
def activeDays (df : DataFrame) : List Date := uniqueFirst (df.rows.map (fun r => r.date))

/-- Days with both a positive deposit total and a positive withdrawal total. -/
def sameDayBothDays (df : DataFrame) : List Date :=
  (activeDays df).filter (fun d =>
    decide (0 < depositSumOn df d) && decide (0 < withdrawalSumOn df d))

/-- Layering detector (`detect_layering_patterns`).  The `deposit` and
`withdrawal` pivot columns exist iff those exact type strings occur. -/
def detect_layering_patterns (df : DataFrame) (account_id : String) (now : Nat) :
    Except String (List Alert × DataFrame) :=
  if df.hasDate && df.hasTransactionType then
    match df.amountCol with
    | .error e => .error e
    | .ok _ =>
      let types := df.rows.map Row.transaction_type
      if "deposit" ∈ types ∧ "withdrawal" ∈ types then
        let same_day_activity := sameDayBothDays df
        if qnat same_day_activity.length > qmul (qnat (activeDays df).length) (qmk 3 10) then
          .ok ([{ account_id := account_id,
                  alert_type := "Layering Pattern",
                  risk_level := RiskLevel.HIGH,
                  confidence_score := qnat 85,
                  description := "Rapid deposit and withdrawal patterns suggest potential layering",
                  evidence := [toString same_day_activity.length ++ " days with both deposits and withdrawals",
                  "Potential layering pattern detected"],
                  timestamp := now,
                  amount_involved := 0 }], df)
        else .ok ([], df)
      else .ok ([], df)
  else .ok ([], df)

/-! ## Prioritizer -/

/-- The sort key used by `prioritize_alerts`. -/
def alertKey (a : Alert) : Nat × ℚ := (a.risk_level.value, a.confidence_score)

/-- Lexicographic comparison of sort keys: is the key of `a` at most the key
of `b`? -/
def alertKeyLe (a b : Alert) : Bool :=
  decide (a.risk_level.value < b.risk_level.value) ||
    (decide (a.risk_level.value = b.risk_level.value) &&
      decide (a.confidence_score ≤ b.confidence_score))

/-- Insert an alert in front of the first element whose key is at most its
own (descending stable insertion). -/
def insertAlert (x : Alert) : List Alert → List Alert
  | [] => [x]
  | y :: ys => if alertKeyLe y x then x :: y :: ys else y :: insertAlert x ys

/-- Stable descending sort by (risk value, confidence), modelling
`sorted(alerts, key=lambda x: (x.risk_level.value, x.confidence_score),
reverse=True)` — Python's sort is stable and `reverse=True` reverses the
comparison, not the tie order. -/
def prioritize_alerts (alerts : List Alert) : List Alert := alerts.foldr insertAlert []

/-! ## Orchestrator -/

/-- Main analysis function (`analyze_account`): runs all detection methods
against the shared frame, threading through the in-place column writes, and
prioritizes the concatenated alerts.  Any detector error propagates — the
source has no handler around the detector calls. -/
def analyze_account (transactions_df : DataFrame) (account_info : Option String) (now : Nat) :
    Except String (List Alert) :=
  let account_id := account_info.getD "unknown"
  match detect_round_number_patterns transactions_df account_id now with
  | .error e => .error e
  | .ok a1 =>
  match detect_suspicious_descriptions transactions_df account_id now with
  | .error e => .error e
  | .ok a2 =>
  match detect_unusual_frequency_patterns transactions_df account_id now with
  | .error e => .error e
  | .ok (a3, df1) =>
  match detect_threshold_avoidance df1 account_id now with
  | .error e => .error e
  | .ok a4 =>
  match detect_end_of_period_activities df1 account_id now with
  | .error e => .error e
  | .ok (a5, df2) =>
  match detect_unusual_counterparties df2 account_id now with
  | .error e => .error e
  | .ok a6 =>
  match detect_cash_intensive_patterns df2 account_id now with
  | .error e => .error e
  | .ok a7 =>
  match detect_layering_patterns df2 account_id now with
  | .error e => .error e
  | .ok (a8, _) =>
    .ok (prioritize_alerts (a1 ++ a2 ++ a3 ++ a4 ++ a5 ++ a6 ++ a7 ++ a8))

/-! ## Reporter -/

/-- The report header lines (`generate_report` before the alert sections);
`analysis_date` models the formatted `datetime.now()` string. -/
def reportHeader (n : Nat) (account_id analysis_date : String) : String :=
  "SLUSH FUND DETECTION REPORT\n" ++ String.mk (List.replicate 50 '=') ++ "\n" ++
  "Account ID: " ++ account_id ++ "\n" ++
  "Analysis Date: " ++ analysis_date ++ "\n" ++
  "Total Alerts: " ++ toString n ++ "\n\n"

/-- The per-alert block of the report body. -/
def renderAlert (a : Alert) : String :=
  "\nAlert Type: " ++ a.alert_type ++ "\n" ++
  "Confidence Score: " ++ fmtFixed a.confidence_score 1 ++ "%\n" ++
  "Description: " ++ a.description ++ "\n" ++
  (if a.amount_involved > 0 then "Amount Involved: $" ++ fmtComma a.amount_involved 2 ++ "\n"
   else "") ++
  "Evidence:\n" ++ String.join (a.evidence.map (fun e => "  • " ++ e ++ "\n")) ++ "\n"

/-- One risk-level section of the report (empty when no alert has the level;
within a level, alerts keep their list order, as the dict grouping does). -/
def renderSection (alerts : List Alert) (lvl : RiskLevel) : String :=
  let group := alerts.filter (fun a => decide (a.risk_level = lvl))
  if group = [] then ""
  else "\n" ++ lvl.levelName ++ " RISK ALERTS (" ++ toString group.length ++ ")\n" ++
    String.mk (List.replicate 30 '-') ++ "\n" ++ String.join (group.map renderAlert)

/-- Report generation (`generate_report`). -/
def generate_report (alerts : List Alert) (account_id : String) (analysis_date : String) :
    String :=
  let header := reportHeader alerts.length account_id analysis_date
  if alerts = [] then header ++ "No suspicious patterns detected.\n"
  else header ++ String.join
    ([RiskLevel.CRITICAL, RiskLevel.HIGH, RiskLevel.MEDIUM, RiskLevel.LOW].map
      (renderSection alerts))

example : qdiv (qnat 13) (qnat 20) > qmk 6 10 := by decide
example : min (qmul (qdiv (qnat 13) (qnat 20)) (qnat 100)) (qnat 95) = qnat 65 := by decide
example : fmtPercent2 (qdiv (qnat 13) (qnat 20)) = "65.00%" := by decide
example : fmtComma (qnat 37600) 2 = "37,600.00" := by decide
example : natWithCommas 10000 = "10,000" := by decide
example : containsSub (lowerStr "Withdrawal") "withdrawal" = true := by decide
example : dateToDays ⟨2024, 1, 2⟩ - dateToDays ⟨2024, 1, 1⟩ = 1 := by decide
example : dateToDays ⟨2024, 3, 1⟩ - dateToDays ⟨2024, 2, 28⟩ = 2 := by decide

/-! ## Properties of the prioritizer (claim C1) -/

theorem alertKeyLe_iff (a b : Alert) :
    alertKeyLe a b = true ↔
      (a.risk_level.value < b.risk_level.value ∨
        (a.risk_level.value = b.risk_level.value ∧ a.confidence_score ≤ b.confidence_score)) := by
  simp [alertKeyLe, Bool.or_eq_true, Bool.and_eq_true, decide_eq_true_eq]

theorem alertKeyLe_total (a b : Alert) : alertKeyLe a b = true ∨ alertKeyLe b a = true := by
  rw [alertKeyLe_iff, alertKeyLe_iff]
  rcases Nat.lt_trichotomy a.risk_level.value b.risk_level.value with h | h | h
  · exact Or.inl (Or.inl h)
  · rcases le_total a.confidence_score b.confidence_score with hc | hc
    · exact Or.inl (Or.inr ⟨h, hc⟩)
    · exact Or.inr (Or.inr ⟨h.symm, hc⟩)
  · exact Or.inr (Or.inl h)

theorem alertKeyLe_trans {a b c : Alert} (hab : alertKeyLe a b = true)
    (hbc : alertKeyLe b c = true) : alertKeyLe a c = true := by
  rw [alertKeyLe_iff] at hab hbc ⊢
  rcases hab with h1 | ⟨h1, h1c⟩ <;> rcases hbc with h2 | ⟨h2, h2c⟩
  · exact Or.inl (h1.trans h2)
  · exact Or.inl (h2 ▸ h1)
  · exact Or.inl (h1 ▸ h2)
  · exact Or.inr ⟨h1.trans h2, h1c.trans h2c⟩

theorem alertKeyLe_of_key_eq {a b : Alert} (h : alertKey a = alertKey b) :
    alertKeyLe a b = true := by
  rw [alertKey, alertKey, Prod.mk.injEq] at h
  rw [alertKeyLe_iff]
  exact Or.inr ⟨h.1, le_of_eq h.2⟩

theorem insertAlert_perm (x : Alert) (l : List Alert) : (insertAlert x l).Perm (x :: l) := by
  induction l with
  | nil => exact List.Perm.refl _
  | cons y ys ih =>
    simp only [insertAlert]
    by_cases h : alertKeyLe y x
    · rw [if_pos h]
    · rw [if_neg h]
      exact (ih.cons y).trans (List.Perm.swap x y ys)

theorem prioritize_alerts_perm (l : List Alert) : (prioritize_alerts l).Perm l := by
  induction l with
  | nil => exact List.Perm.refl _
  | cons x xs ih => exact (insertAlert_perm x (prioritize_alerts xs)).trans (ih.cons x)

theorem pairwise_insertAlert (x : Alert) (l : List Alert)
    (h : l.Pairwise (fun a b => alertKeyLe b a = true)) :
    (insertAlert x l).Pairwise (fun a b => alertKeyLe b a = true) := by
  induction l with
  | nil => simp [insertAlert]
  | cons y ys ih =>
    simp only [insertAlert]
    rcases List.pairwise_cons.mp h with ⟨hy, hys⟩
    by_cases hxy : alertKeyLe y x = true
    · rw [if_pos hxy]
      refine List.pairwise_cons.mpr ⟨?_, h⟩
      intro z hz
      rcases List.mem_cons.mp hz with rfl | hz'
      · exact hxy
      · exact alertKeyLe_trans (hy z hz') hxy
    · rw [if_neg hxy]
      have hxy' : alertKeyLe x y = true := by
        rcases alertKeyLe_total x y with h' | h'
        · exact h'
        · exact absurd h' hxy
      refine List.pairwise_cons.mpr ⟨?_, ih hys⟩
      intro z hz
      have hz' : z ∈ x :: ys := (insertAlert_perm x ys).mem_iff.mp hz
      rcases List.mem_cons.mp hz' with rfl | hz''
      · exact hxy'
      · exact hy z hz''

theorem prioritize_alerts_sorted (l : List Alert) :
    (prioritize_alerts l).Pairwise (fun a b => alertKeyLe b a = true) := by
  induction l with
  | nil => exact List.Pairwise.nil
  | cons x xs ih => exact pairwise_insertAlert x (prioritize_alerts xs) ih

theorem filter_insertAlert (k : Nat × ℚ) (x : Alert) (l : List Alert) :
    (insertAlert x l).filter (fun a => decide (alertKey a = k)) =
      if alertKey x = k then x :: l.filter (fun a => decide (alertKey a = k))
      else l.filter (fun a => decide (alertKey a = k)) := by
  induction l with
  | nil =>
    by_cases h : alertKey x = k
    · rw [if_pos h]
      simp [insertAlert, List.filter, h]
    · rw [if_neg h]
      simp [insertAlert, List.filter, h]
  | cons y ys ih =>
    simp only [insertAlert]
    by_cases hxy : alertKeyLe y x = true
    · rw [if_pos hxy]
      by_cases h : alertKey x = k
      · rw [if_pos h]
        simp [List.filter_cons, h]
      · rw [if_neg h]
        simp [List.filter_cons, h]
    · rw [if_neg hxy]
      have hkne : alertKey y ≠ alertKey x := fun he => hxy (alertKeyLe_of_key_eq he)
      by_cases hy : alertKey y = k
      · have hx : alertKey x ≠ k := fun hxk => hkne (hy.trans hxk.symm)
        rw [if_neg hx]
        simp [List.filter_cons, hy, hx, ih]
      · by_cases hx : alertKey x = k
        · rw [if_pos hx]
          simp [List.filter_cons, hy, hx, ih]
        · rw [if_neg hx]
          simp [List.filter_cons, hy, hx, ih]

theorem prioritize_alerts_filter (k : Nat × ℚ) (l : List Alert) :
    (prioritize_alerts l).filter (fun a => decide (alertKey a = k)) =
      l.filter (fun a => decide (alertKey a = k)) := by
  induction l with
  | nil => rfl
  | cons x xs ih =>
    show (insertAlert x (prioritize_alerts xs)).filter (fun a => decide (alertKey a = k)) = _
    rw [filter_insertAlert k x (prioritize_alerts xs)]
    by_cases h : alertKey x = k
    · rw [if_pos h, ih]
      simp [List.filter_cons, h]
    · rw [if_neg h, ih]
      simp [List.filter_cons, h]

/-- First alert of the C1 example: MEDIUM risk, confidence 70. -/
def c1M70 : Alert := ⟨"A", "m70", RiskLevel.MEDIUM, qnat 70, "", [], 0, 0⟩

/-- Second alert of the C1 example: HIGH risk, confidence 60, emitted first. -/
def c1H60a : Alert := ⟨"A", "h60-first", RiskLevel.HIGH, qnat 60, "", [], 0, 0⟩

/-- Third alert of the C1 example: HIGH risk, confidence 60, emitted second. -/
def c1H60b : Alert := ⟨"A", "h60-second", RiskLevel.HIGH, qnat 60, "", [], 0, 0⟩

/-- Fourth alert of the C1 example: LOW risk, confidence 90. -/
def c1L90 : Alert := ⟨"A", "l90", RiskLevel.LOW, qnat 90, "", [], 0, 0⟩

/-- C1: the prioritizer returns a permutation of its input, sorted in
descending lexicographic order of (risk-level rank, confidence score) — where
`alertKeyLe` is exactly that lexicographic comparison with ranks LOW=1 <
MEDIUM=2 < HIGH=3 < CRITICAL=4 — and it is stable: for every key, the sublist
of alerts with that key is preserved verbatim, so two alerts with equal risk
and confidence keep their input order.  On the emission order
[MEDIUM/70, HIGH/60, HIGH/60, LOW/90] the result is
[HIGH/60 (first), HIGH/60 (second), MEDIUM/70, LOW/90]. -/
theorem C1_prioritizer_stable_descending_sort :
    (∀ a b : Alert, alertKeyLe a b = true ↔
      (a.risk_level.value < b.risk_level.value ∨
        (a.risk_level.value = b.risk_level.value ∧
          a.confidence_score ≤ b.confidence_score))) ∧
    (∀ l : List Alert, (prioritize_alerts l).Perm l) ∧
    (∀ l : List Alert, (prioritize_alerts l).Pairwise (fun a b => alertKeyLe b a = true)) ∧
    (∀ (l : List Alert) (k : Nat × ℚ),
      (prioritize_alerts l).filter (fun a => decide (alertKey a = k)) =
        l.filter (fun a => decide (alertKey a = k))) ∧
    prioritize_alerts [c1M70, c1H60a, c1H60b, c1L90] = [c1H60a, c1H60b, c1M70, c1L90] :=
  ⟨alertKeyLe_iff, prioritize_alerts_perm, prioritize_alerts_sorted,
    fun l k => prioritize_alerts_filter k l, by decide⟩

/-! ## Properties of the round-number detector (claim C7) -/

theorem div_den_eq_one_iff (x : ℚ) (d : Nat) (hd : (d : ℚ) ≠ 0) :
    (qdiv x (qnat d)).den = 1 ↔ ∃ k : ℤ, x = d * k := by
  rw [qdiv_eq, qnat_eq, Rat.den_eq_one_iff]
  constructor
  · intro h
    refine ⟨(x / (d : ℚ)).num, ?_⟩
    have h2 : x / (d : ℚ) = ((x / (d : ℚ)).num : ℚ) := h.symm
    rw [div_eq_iff hd] at h2
    rw [mul_comm] at h2
    exact h2
  · rintro ⟨k, rfl⟩
    have h2 : (d : ℚ) * (k : ℚ) / (d : ℚ) = (k : ℚ) := mul_div_cancel_left₀ _ hd
    rw [h2, Rat.num_intCast]

theorem isRound_iff (x : ℚ) :
    isRound x = true ↔ ((∃ k : ℤ, x = 50 * k) ∨ (∃ k : ℤ, x = 100 * k)) := by
  rw [isRound, Bool.or_eq_true, decide_eq_true_eq, decide_eq_true_eq,
    div_den_eq_one_iff x 100 (by norm_num), div_den_eq_one_iff x 50 (by norm_num)]
  constructor
  · rintro (⟨k, rfl⟩ | ⟨k, rfl⟩)
    · exact Or.inr ⟨k, by norm_num⟩
    · exact Or.inl ⟨k, by norm_num⟩
  · rintro (⟨k, rfl⟩ | ⟨k, rfl⟩)
    · exact Or.inr ⟨k, by norm_num⟩
    · exact Or.inl ⟨k, by norm_num⟩

/-- The fraction of round transactions, written with library operations. -/
theorem round_percentage_eq (df : DataFrame) :
    qdiv (qnat (roundTxns df).length) (qnat df.rows.length) =
      ((roundTxns df).length : ℚ) / (df.rows.length : ℚ) := by
  rw [qdiv_eq, qnat_eq, qnat_eq]

theorem detect_round_characterization (df : DataFrame) (account_id : String) (now : Nat)
    (h : df.hasAmount = true) :
    detect_round_number_patterns df account_id now =
      .ok (if 10 < df.rows.length ∧
             (0.6 : ℚ) < ((roundTxns df).length : ℚ) / (df.rows.length : ℚ) then
        [{ account_id := account_id,
           alert_type := "Round Number Pattern",
           risk_level := if ((roundTxns df).length : ℚ) / (df.rows.length : ℚ) < (0.8 : ℚ)
             then RiskLevel.MEDIUM else RiskLevel.HIGH,
           confidence_score :=
             min (((roundTxns df).length : ℚ) / (df.rows.length : ℚ) * 100) 95,
           description := "Unusually high percentage of round-number transactions",
           evidence := [toString (roundTxns df).length ++ " out of " ++
               toString df.rows.length ++ " transactions are round numbers",
             "Round number percentage: " ++
               fmtPercent2 (((roundTxns df).length : ℚ) / (df.rows.length : ℚ))],
           timestamp := now,
           amount_involved := ((roundTxns df).map Row.amount).sum }]
        else []) := by
  have hp := round_percentage_eq df
  have h06 : qmk 6 10 = (0.6 : ℚ) := by rw [qmk_eq]; norm_num
  have h08 : qmk 8 10 = (0.8 : ℚ) := by rw [qmk_eq]; norm_num
  have h100 : qnat 100 = (100 : ℚ) := by rw [qnat_eq]; norm_num
  have h95 : qnat 95 = (95 : ℚ) := by rw [qnat_eq]; norm_num
  unfold detect_round_number_patterns
  simp only [DataFrame.amountCol, h, if_true]
  simp only [hp, h06, h08, h100, h95, qmul_eq, sumAmounts, qsum_eq, gt_iff_lt]
  by_cases h1 : 10 < df.rows.length
  · by_cases h2 : (0.6 : ℚ) < ((roundTxns df).length : ℚ) / (df.rows.length : ℚ)
    · simp [h1, h2]
    · simp [h1, h2]
  · simp [h1]

/-- Shorthand for building one transaction row. -/
def mkRow (y m d : Nat) (amt : ℚ) (desc cp ty : String) : Row :=
  ⟨⟨y, m, d⟩, amt, desc, cp, ty⟩

/-- C7 example data: 20 transactions, 13 exact multiples of 100 (100..1300),
7 of amount 37 (not round). -/
def c7rows : List Row :=
  (List.range 13).map (fun i => mkRow 2024 1 1 (qnat (100 * (i + 1))) "pay" "c" "t") ++
  (List.range 7).map (fun _ => mkRow 2024 1 2 (qnat 37) "pay" "c" "t")

/-- C7 example frame (only the amount column is needed). -/
def c7df : DataFrame := ⟨c7rows, true, false, false, false, false, []⟩

/-- C7: the Round-Number Detector alerts only above 10 transactions; a
transaction is round iff its amount is an exact multiple of 50 or of 100; with
`round_fraction = round_count / total_count` it emits exactly one alert iff
`round_fraction > 0.6`, with risk MEDIUM when `round_fraction < 0.8` and HIGH
otherwise, confidence `min(round_fraction * 100, 95)` and `amount_involved`
the sum of the round amounts; in particular 13 multiples of 100 among 20
transactions give exactly one MEDIUM alert with confidence 65. -/
theorem C7_round_number_detector :
    (∀ x : ℚ, isRound x = true ↔ ((∃ k : ℤ, x = 50 * k) ∨ (∃ k : ℤ, x = 100 * k))) ∧
    (∀ (df : DataFrame) (account_id : String) (now : Nat), df.hasAmount = true →
      detect_round_number_patterns df account_id now =
        .ok (if 10 < df.rows.length ∧
               (0.6 : ℚ) < ((roundTxns df).length : ℚ) / (df.rows.length : ℚ) then
          [{ account_id := account_id,
             alert_type := "Round Number Pattern",
             risk_level := if ((roundTxns df).length : ℚ) / (df.rows.length : ℚ) < (0.8 : ℚ)
               then RiskLevel.MEDIUM else RiskLevel.HIGH,
             confidence_score :=
               min (((roundTxns df).length : ℚ) / (df.rows.length : ℚ) * 100) 95,
             description := "Unusually high percentage of round-number transactions",
             evidence := [toString (roundTxns df).length ++ " out of " ++
                 toString df.rows.length ++ " transactions are round numbers",
               "Round number percentage: " ++
                 fmtPercent2 (((roundTxns df).length : ℚ) / (df.rows.length : ℚ))],
             timestamp := now,
             amount_involved := ((roundTxns df).map Row.amount).sum }]
          else [])) ∧
    detect_round_number_patterns c7df "ACC" 5 =
      .ok [⟨"ACC", "Round Number Pattern", RiskLevel.MEDIUM, qnat 65,
        "Unusually high percentage of round-number transactions",
        ["13 out of 20 transactions are round numbers", "Round number percentage: 65.00%"],
        5, qnat 9100⟩] :=
  ⟨isRound_iff, detect_round_characterization, by decide⟩

/-- Witness for C7: instantiating the characterization at the concrete
20-transaction frame, with its `hasAmount` hypothesis discharged by `rfl`. -/
theorem C7_round_number_detector_witness :
    detect_round_number_patterns c7df "ACC" 5 =
      .ok (if 10 < c7df.rows.length ∧
             (0.6 : ℚ) < ((roundTxns c7df).length : ℚ) / (c7df.rows.length : ℚ) then
        [{ account_id := "ACC",
           alert_type := "Round Number Pattern",
           risk_level := if ((roundTxns c7df).length : ℚ) / (c7df.rows.length : ℚ) < (0.8 : ℚ)
             then RiskLevel.MEDIUM else RiskLevel.HIGH,
           confidence_score :=
             min (((roundTxns c7df).length : ℚ) / (c7df.rows.length : ℚ) * 100) 95,
           description := "Unusually high percentage of round-number transactions",
           evidence := [toString (roundTxns c7df).length ++ " out of " ++
               toString c7df.rows.length ++ " transactions are round numbers",
             "Round number percentage: " ++
               fmtPercent2 (((roundTxns c7df).length : ℚ) / (c7df.rows.length : ℚ))],
           timestamp := 5,
           amount_involved := ((roundTxns c7df).map Row.amount).sum }]
        else []) :=
  C7_round_number_detector.2.1 c7df "ACC" 5 rfl

/-! ## Properties of the threshold-avoidance detector (claim C8) -/

theorem near_threshold_mem_iff (df : DataFrame) (t : Nat) (r : Row) :
    r ∈ near_threshold_txns df t ↔
      r ∈ df.rows ∧ (0.9 : ℚ) * t ≤ r.amount ∧ r.amount < t := by
  rw [near_threshold_txns, List.mem_filter, Bool.and_eq_true, decide_eq_true_eq,
    decide_eq_true_eq, qmul_eq, qnat_eq, qmk_eq]
  have h9 : ((9 : ℤ) : ℚ) / ((10 : ℕ) : ℚ) = (0.9 : ℚ) := by norm_num
  rw [h9, mul_comm]

theorem thresholdAlert_fires (df : DataFrame) (account_id : String) (now t : Nat)
    (h : 3 < (near_threshold_txns df t).length) :
    thresholdAlert df account_id now t =
      [{ account_id := account_id,
         alert_type := "Threshold Avoidance",
         risk_level := if 10000 ≤ t then RiskLevel.HIGH else RiskLevel.MEDIUM,
         confidence_score := 80,
         description := "Multiple transactions appear to avoid $" ++ natWithCommas t ++
           " reporting threshold",
         evidence := [
           toString (near_threshold_txns df t).length ++ " transactions between $" ++
             fmtComma (qmul (qnat t) (qmk 9 10)) 0 ++ " and $" ++ fmtComma (qnat t) 0,
           "Average amount: $" ++
             fmtComma (qdiv (sumAmounts (near_threshold_txns df t))
               (qnat (near_threshold_txns df t).length)) 2],
         timestamp := now,
         amount_involved := ((near_threshold_txns df t).map Row.amount).sum }] := by
  have h80 : qnat 80 = (80 : ℚ) := by rw [qnat_eq]; norm_num
  rw [thresholdAlert, if_pos h, h80, sumAmounts, qsum_eq]

theorem thresholdAlert_silent (df : DataFrame) (account_id : String) (now t : Nat)
    (h : ¬ 3 < (near_threshold_txns df t).length) :
    thresholdAlert df account_id now t = [] := by
  rw [thresholdAlert, if_neg h]

theorem detect_threshold_characterization (df : DataFrame) (account_id : String) (now : Nat)
    (h : df.hasAmount = true) :
    detect_threshold_avoidance df account_id now =
      .ok (thresholdAlert df account_id now 10000 ++ thresholdAlert df account_id now 5000 ++
        thresholdAlert df account_id now 3000 ++ thresholdAlert df account_id now 1000) := by
  rw [detect_threshold_avoidance]
  simp [DataFrame.amountCol, h, thresholds]

/-- C8 example data: four transactions just below the $10,000 threshold. -/
def c8rows : List Row :=
  [mkRow 2024 1 1 (qnat 9100) "a" "c" "t", mkRow 2024 1 2 (qnat 9300) "b" "c" "t",
   mkRow 2024 1 3 (qnat 9500) "d" "c" "t", mkRow 2024 1 4 (qnat 9700) "e" "c" "t"]

/-- C8 example frame. -/
def c8df : DataFrame := ⟨c8rows, true, false, false, false, false, []⟩

/-- C8: for each threshold in {10000, 5000, 3000, 1000} independently, the
Threshold-Avoidance Detector selects the transactions with amount in
`[0.9 t, t)` and emits one alert for the threshold iff more than 3 exist, with
risk HIGH iff `t ≥ 10000` (MEDIUM otherwise), confidence 80 and
`amount_involved` the sum over the band; the four amounts 9100/9300/9500/9700
produce exactly one HIGH alert (threshold 10000) with amount 37600. -/
theorem C8_threshold_avoidance_detector :
    (∀ (df : DataFrame) (t : Nat) (r : Row),
      r ∈ near_threshold_txns df t ↔
        r ∈ df.rows ∧ (0.9 : ℚ) * t ≤ r.amount ∧ r.amount < t) ∧
    (∀ (df : DataFrame) (account_id : String) (now t : Nat),
      3 < (near_threshold_txns df t).length →
      thresholdAlert df account_id now t =
        [{ account_id := account_id,
           alert_type := "Threshold Avoidance",
           risk_level := if 10000 ≤ t then RiskLevel.HIGH else RiskLevel.MEDIUM,
           confidence_score := 80,
           description := "Multiple transactions appear to avoid $" ++ natWithCommas t ++
             " reporting threshold",
           evidence := [
             toString (near_threshold_txns df t).length ++ " transactions between $" ++
               fmtComma (qmul (qnat t) (qmk 9 10)) 0 ++ " and $" ++ fmtComma (qnat t) 0,
             "Average amount: $" ++
               fmtComma (qdiv (sumAmounts (near_threshold_txns df t))
                 (qnat (near_threshold_txns df t).length)) 2],
           timestamp := now,
           amount_involved := ((near_threshold_txns df t).map Row.amount).sum }]) ∧
    (∀ (df : DataFrame) (account_id : String) (now t : Nat),
      ¬ 3 < (near_threshold_txns df t).length → thresholdAlert df account_id now t = []) ∧
    (∀ (df : DataFrame) (account_id : String) (now : Nat), df.hasAmount = true →
      detect_threshold_avoidance df account_id now =
        .ok (thresholdAlert df account_id now 10000 ++ thresholdAlert df account_id now 5000 ++
          thresholdAlert df account_id now 3000 ++ thresholdAlert df account_id now 1000)) ∧
    detect_threshold_avoidance c8df "ACC" 3 =
      .ok [⟨"ACC", "Threshold Avoidance", RiskLevel.HIGH, qnat 80,
        "Multiple transactions appear to avoid $10,000 reporting threshold",
        ["4 transactions between $9,000 and $10,000", "Average amount: $9,400.00"],
        3, qnat 37600⟩] :=
  ⟨near_threshold_mem_iff, thresholdAlert_fires, thresholdAlert_silent,
    detect_threshold_characterization, by decide⟩

/-- Witness for C8: the characterization instantiated at the concrete
four-transaction frame (hasAmount hypothesis by `rfl`), together with the
fires/does-not-fire conjuncts applied at the 10000 and 5000 bands, whose
count hypotheses hold by `decide`. -/
theorem C8_threshold_avoidance_detector_witness :
    detect_threshold_avoidance c8df "ACC" 3 =
      .ok (thresholdAlert c8df "ACC" 3 10000 ++ thresholdAlert c8df "ACC" 3 5000 ++
        thresholdAlert c8df "ACC" 3 3000 ++ thresholdAlert c8df "ACC" 3 1000) ∧
    thresholdAlert c8df "ACC" 3 5000 = [] ∧
    mkRow 2024 1 1 (qnat 9100) "a" "c" "t" ∈ near_threshold_txns c8df 10000 :=
  ⟨C8_threshold_avoidance_detector.2.2.2.1 c8df "ACC" 3 rfl,
   C8_threshold_avoidance_detector.2.2.1 c8df "ACC" 3 5000 (by decide),
   (C8_threshold_avoidance_detector.1 c8df 10000 _).mpr (by norm_num [c8df, c8rows, mkRow, qnat_eq])⟩

/-! ## Boundary exclusivity of the detector thresholds (claim C9) -/

theorem round_boundary (df : DataFrame) (account_id : String) (now : Nat)
    (h : df.hasAmount = true)
    (hb : ((roundTxns df).length : ℚ) / (df.rows.length : ℚ) = 0.6) :
    detect_round_number_patterns df account_id now = .ok [] := by
  rw [detect_round_characterization df account_id now h]
  simp [hb]

theorem threshold_boundary (df : DataFrame) (account_id : String) (now t : Nat)
    (hb : (near_threshold_txns df t).length = 3) :
    thresholdAlert df account_id now t = [] := by
  apply thresholdAlert_silent
  rw [hb]
  omega

theorem threshold_boundary_all (df : DataFrame) (account_id : String) (now : Nat)
    (h : df.hasAmount = true)
    (hb : ∀ t ∈ thresholds, (near_threshold_txns df t).length ≤ 3) :
    detect_threshold_avoidance df account_id now = .ok [] := by
  rw [detect_threshold_characterization df account_id now h]
  rw [thresholdAlert_silent df account_id now 10000 (by have := hb 10000 (by simp [thresholds]); omega),
    thresholdAlert_silent df account_id now 5000 (by have := hb 5000 (by simp [thresholds]); omega),
    thresholdAlert_silent df account_id now 3000 (by have := hb 3000 (by simp [thresholds]); omega),
    thresholdAlert_silent df account_id now 1000 (by have := hb 1000 (by simp [thresholds]); omega)]
  rfl

theorem counterparty_boundary (df : DataFrame) (account_id : String) (now : Nat)
    (hcp : df.hasCounterparty = true) (ha : df.hasAmount = true) (top : String × ℚ)
    (htop : topByTotal (counterpartyTotals df) = some top)
    (hb : top.2 / sumAmounts df.rows = (0.5 : ℚ)) :
    detect_unusual_counterparties df account_id now = .ok [] := by
  rw [detect_unusual_counterparties]
  have hs : qdiv top.2 (sumAmounts df.rows) = (0.5 : ℚ) := by rw [qdiv_eq]; exact hb
  have h05 : qmk 5 10 = (0.5 : ℚ) := by rw [qmk_eq]; norm_num
  simp [hcp, DataFrame.amountCol, ha, htop, hs, h05]

theorem insertCountDesc_perm (x : String × Nat) (l : List (String × Nat)) :
    (insertCountDesc x l).Perm (x :: l) := by
  induction l with
  | nil => exact List.Perm.refl _
  | cons y ys ih =>
    simp only [insertCountDesc]
    by_cases h : y.2 ≤ x.2
    · rw [if_pos h]
    · rw [if_neg h]
      exact (ih.cons y).trans (List.Perm.swap x y ys)

theorem sortCountsDesc_perm (l : List (String × Nat)) : (sortCountsDesc l).Perm l := by
  induction l with
  | nil => exact List.Perm.refl _
  | cons x xs ih => exact (insertCountDesc_perm x (sortCountsDesc xs)).trans (ih.cons x)

theorem descriptions_boundary (df : DataFrame) (account_id : String) (now : Nat)
    (h : df.hasDescription = true)
    (hb1 : ((vagueTxns df).length : ℚ) = 0.3 * (df.rows.length : ℚ))
    (hb2 : ∀ p ∈ descriptionCounts df, p.2 ≤ 5) :
    detect_suspicious_descriptions df account_id now = .ok [] := by
  rw [detect_suspicious_descriptions]
  have hv : ¬ (qnat (vagueTxns df).length > qmul (qnat df.rows.length) (qmk 3 10)) := by
    rw [qnat_eq, qmul_eq, qnat_eq, qmk_eq, hb1]
    have h3 : ((3 : ℤ) : ℚ) / ((10 : ℕ) : ℚ) = (0.3 : ℚ) := by norm_num
    rw [h3, mul_comm]
    exact lt_irrefl _
  have hr : (sortCountsDesc (descriptionCounts df)).filter (fun p => p.2 > 5) = [] := by
    rw [List.filter_eq_nil_iff]
    intro p hp
    have hple := hb2 p ((sortCountsDesc_perm (descriptionCounts df)).mem_iff.mp hp)
    simp only [gt_iff_lt, decide_eq_true_eq, not_lt]
    exact hple
  simp [h, hv, hr]

theorem frequency_boundary (df : DataFrame) (account_id : String) (now : Nat)
    (h : df.hasDate = true)
    (hb : ((recentActivityCount df : ℕ) : ℚ) = 0.4 * (df.rows.length : ℚ)) :
    detect_unusual_frequency_patterns df account_id now = .ok ([], df) := by
  rw [detect_unusual_frequency_patterns]
  have hv : ¬ (qnat (recentActivityCount df) > qmul (qnat df.rows.length) (qmk 4 10)) := by
    rw [qnat_eq, qmul_eq, qnat_eq, qmk_eq, hb]
    have h4 : ((4 : ℤ) : ℚ) / ((10 : ℕ) : ℚ) = (0.4 : ℚ) := by norm_num
    rw [h4, mul_comm]
    exact lt_irrefl _
  simp [h, hv]

theorem eopMutate_rows (df : DataFrame) : (eopMutate df).rows = df.rows := rfl

theorem eop_boundary (df : DataFrame) (account_id : String) (now : Nat)
    (h : df.hasDate = true)
    (hb1 : ((endOfMonthTxns (eopMutate df)).length : ℚ) = 0.25 * (df.rows.length : ℚ))
    (hb2 : ((quarterEndTxns (eopMutate df)).length : ℚ) = 0.4 * (df.rows.length : ℚ)) :
    detect_end_of_period_activities df account_id now = .ok ([], eopMutate df) := by
  rw [detect_end_of_period_activities]
  have hv1 : ¬ (qnat (endOfMonthTxns (eopMutate df)).length >
      qmul (qnat (eopMutate df).rows.length) (qmk 25 100)) := by
    rw [qnat_eq, qmul_eq, qnat_eq, qmk_eq, hb1, eopMutate_rows]
    have h25 : ((25 : ℤ) : ℚ) / ((100 : ℕ) : ℚ) = (0.25 : ℚ) := by norm_num
    rw [h25, mul_comm]
    exact lt_irrefl _
  have hv2 : ¬ (qnat (quarterEndTxns (eopMutate df)).length >
      qmul (qnat (eopMutate df).rows.length) (qmk 4 10)) := by
    rw [qnat_eq, qmul_eq, qnat_eq, qmk_eq, hb2, eopMutate_rows]
    have h4 : ((4 : ℤ) : ℚ) / ((10 : ℕ) : ℚ) = (0.4 : ℚ) := by norm_num
    rw [h4, mul_comm]
    exact lt_irrefl _
  simp [h, hv1, hv2]

theorem cash_boundary (df : DataFrame) (account_id : String) (now : Nat)
    (ht : df.hasTransactionType = true) (ha : df.hasAmount = true)
    (hb1 : ((cashTxns df).length : ℚ) / (df.rows.length : ℚ) = 0.3)
    (hb2 : sumAmounts (cashTxns df) / sumAmounts df.rows = (0.4 : ℚ)) :
    detect_cash_intensive_patterns df account_id now = .ok [] := by
  rw [detect_cash_intensive_patterns]
  by_cases hc : (cashTxns df).length > 0
  · have hv1 : ¬ (qdiv (qnat (cashTxns df).length) (qnat df.rows.length) > qmk 3 10) := by
      rw [qdiv_eq, qnat_eq, qnat_eq, hb1]
      have h3 : qmk 3 10 = (0.3 : ℚ) := by rw [qmk_eq]; norm_num
      rw [h3]
      exact lt_irrefl _
    have hv2 : ¬ (qdiv (sumAmounts (cashTxns df)) (sumAmounts df.rows) > qmk 4 10) := by
      rw [qdiv_eq, hb2]
      have h4 : qmk 4 10 = (0.4 : ℚ) := by rw [qmk_eq]; norm_num
      rw [h4]
      exact lt_irrefl _
    simp [ht, hc, DataFrame.amountCol, ha, hv1, hv2]
  · simp [ht, hc]

theorem layering_boundary (df : DataFrame) (account_id : String) (now : Nat)
    (hd : df.hasDate = true) (ht : df.hasTransactionType = true) (ha : df.hasAmount = true)
    (hb : ((sameDayBothDays df).length : ℚ) = 0.3 * ((activeDays df).length : ℚ)) :
    detect_layering_patterns df account_id now = .ok ([], df) := by
  rw [detect_layering_patterns]
  have hv : ¬ (qnat (sameDayBothDays df).length >
      qmul (qnat (activeDays df).length) (qmk 3 10)) := by
    rw [qnat_eq, qmul_eq, qnat_eq, qmk_eq, hb]
    have h3 : ((3 : ℤ) : ℚ) / ((10 : ℕ) : ℚ) = (0.3 : ℚ) := by norm_num
    rw [h3, mul_comm]
    exact lt_irrefl _
  by_cases hw : ("deposit" ∈ df.rows.map Row.transaction_type ∧
      "withdrawal" ∈ df.rows.map Row.transaction_type)
  · simp [hd, ht, DataFrame.amountCol, ha, hw, hv]
  · simp only [hd, ht, DataFrame.amountCol, ha, Bool.and_self, if_true]
    simp [hw, hv]

/-- C9: every detector's firing condition is strictly exclusive at its
boundary — data whose statistic equals the threshold exactly produces no
alert: round fraction = 0.6; exactly 3 transactions in a band (per band, and
all bands at most 3 for the whole detector); top counterparty share = 0.5;
vague fraction = 0.3 with no description repeated more than 5 times; burst
fraction = 0.4; month-end fraction = 0.25 with quarter-end fraction = 0.4;
cash count fraction = 0.3 with cash amount fraction = 0.4; and both-direction
day fraction = 0.3. -/
theorem C9_boundary_exclusivity :
    (∀ (df : DataFrame) (account_id : String) (now : Nat), df.hasAmount = true →
      ((roundTxns df).length : ℚ) / (df.rows.length : ℚ) = 0.6 →
      detect_round_number_patterns df account_id now = .ok []) ∧
    (∀ (df : DataFrame) (account_id : String) (now t : Nat),
      (near_threshold_txns df t).length = 3 → thresholdAlert df account_id now t = []) ∧
    (∀ (df : DataFrame) (account_id : String) (now : Nat), df.hasAmount = true →
      (∀ t ∈ thresholds, (near_threshold_txns df t).length ≤ 3) →
      detect_threshold_avoidance df account_id now = .ok []) ∧
    (∀ (df : DataFrame) (account_id : String) (now : Nat),
      df.hasCounterparty = true → df.hasAmount = true → ∀ top : String × ℚ,
      topByTotal (counterpartyTotals df) = some top →
      top.2 / sumAmounts df.rows = (0.5 : ℚ) →
      detect_unusual_counterparties df account_id now = .ok []) ∧
    (∀ (df : DataFrame) (account_id : String) (now : Nat), df.hasDescription = true →
      ((vagueTxns df).length : ℚ) = 0.3 * (df.rows.length : ℚ) →
      (∀ p ∈ descriptionCounts df, p.2 ≤ 5) →
      detect_suspicious_descriptions df account_id now = .ok []) ∧
    (∀ (df : DataFrame) (account_id : String) (now : Nat), df.hasDate = true →
      ((recentActivityCount df : ℕ) : ℚ) = 0.4 * (df.rows.length : ℚ) →
      detect_unusual_frequency_patterns df account_id now = .ok ([], df)) ∧
    (∀ (df : DataFrame) (account_id : String) (now : Nat), df.hasDate = true →
      ((endOfMonthTxns (eopMutate df)).length : ℚ) = 0.25 * (df.rows.length : ℚ) →
      ((quarterEndTxns (eopMutate df)).length : ℚ) = 0.4 * (df.rows.length : ℚ) →
      detect_end_of_period_activities df account_id now = .ok ([], eopMutate df)) ∧
    (∀ (df : DataFrame) (account_id : String) (now : Nat),
      df.hasTransactionType = true → df.hasAmount = true →
      ((cashTxns df).length : ℚ) / (df.rows.length : ℚ) = 0.3 →
      sumAmounts (cashTxns df) / sumAmounts df.rows = (0.4 : ℚ) →
      detect_cash_intensive_patterns df account_id now = .ok []) ∧
    (∀ (df : DataFrame) (account_id : String) (now : Nat),
      df.hasDate = true → df.hasTransactionType = true → df.hasAmount = true →
      ((sameDayBothDays df).length : ℚ) = 0.3 * ((activeDays df).length : ℚ) →
      detect_layering_patterns df account_id now = .ok ([], df)) :=
  ⟨round_boundary, threshold_boundary, threshold_boundary_all, counterparty_boundary,
    descriptions_boundary, frequency_boundary, eop_boundary, cash_boundary, layering_boundary⟩

/-- Boundary data for the round-number detector: 12 of 20 amounts round. -/
def c9roundDf : DataFrame :=
  ⟨(List.range 12).map (fun _ => mkRow 2024 1 1 (qnat 100) "x" "c" "t") ++
    (List.range 8).map (fun _ => mkRow 2024 1 1 (qnat 37) "x" "c" "t"),
   true, false, false, false, false, []⟩

/-- Boundary data for threshold avoidance: exactly 3 amounts in [9000,10000). -/
def c9thDf : DataFrame :=
  ⟨[mkRow 2024 1 1 (qnat 9100) "x" "c" "t", mkRow 2024 1 2 (qnat 9100) "x" "c" "t",
    mkRow 2024 1 3 (qnat 9100) "x" "c" "t"], true, false, false, false, false, []⟩

/-- Boundary data for counterparty concentration: top share exactly one half. -/
def c9cpDf : DataFrame :=
  ⟨[mkRow 2024 1 1 (qnat 100) "x" "A" "t", mkRow 2024 1 2 (qnat 60) "x" "B" "t",
    mkRow 2024 1 3 (qnat 40) "x" "C" "t"], true, false, false, true, false, []⟩

/-- Boundary data for descriptions: 3 of 10 vague, max repetition 5. -/
def c9descDf : DataFrame :=
  ⟨(List.range 3).map (fun _ => mkRow 2024 1 1 (qnat 10) "consulting fee" "c" "t") ++
    (List.range 5).map (fun _ => mkRow 2024 1 1 (qnat 10) "alpha" "c" "t") ++
    (List.range 2).map (fun _ => mkRow 2024 1 1 (qnat 10) "beta" "c" "t"),
   true, false, true, false, false, []⟩

/-- Boundary data for frequency bursts: 2 of 5 rows within one day of the
previous one. -/
def c9freqDf : DataFrame :=
  ⟨[mkRow 2024 1 1 (qnat 10) "x" "c" "t", mkRow 2024 1 10 (qnat 10) "x" "c" "t",
    mkRow 2024 1 11 (qnat 10) "x" "c" "t", mkRow 2024 1 20 (qnat 10) "x" "c" "t",
    mkRow 2024 1 21 (qnat 10) "x" "c" "t"], false, true, false, false, false, []⟩

/-- Boundary data for end-of-period: 5 of 20 at month-end, 8 of 20 in
quarter-end months. -/
def c9eopDf : DataFrame :=
  ⟨(List.range 5).map (fun _ => mkRow 2024 3 28 (qnat 10) "x" "c" "t") ++
    (List.range 3).map (fun _ => mkRow 2024 3 10 (qnat 10) "x" "c" "t") ++
    (List.range 12).map (fun _ => mkRow 2024 1 10 (qnat 10) "x" "c" "t"),
   false, true, false, false, false, []⟩

/-- Boundary data for cash intensity: 3 of 10 rows cash-like, 12 of 30 by
amount. -/
def c9cashDf : DataFrame :=
  ⟨(List.range 3).map (fun _ => mkRow 2024 1 1 (qnat 4) "x" "c" "atm") ++
    (List.range 5).map (fun _ => mkRow 2024 1 1 (qnat 2) "x" "c" "wire") ++
    (List.range 2).map (fun _ => mkRow 2024 1 1 (qnat 4) "x" "c" "wire"),
   true, false, false, false, true, []⟩

/-- Boundary data for layering: 3 of 10 active days with both directions. -/
def c9layDf : DataFrame :=
  ⟨[mkRow 2024 1 1 (qnat 10) "x" "c" "deposit", mkRow 2024 1 1 (qnat 10) "x" "c" "withdrawal",
    mkRow 2024 1 2 (qnat 10) "x" "c" "deposit", mkRow 2024 1 2 (qnat 10) "x" "c" "withdrawal",
    mkRow 2024 1 3 (qnat 10) "x" "c" "deposit", mkRow 2024 1 3 (qnat 10) "x" "c" "withdrawal",
    mkRow 2024 1 4 (qnat 10) "x" "c" "deposit", mkRow 2024 1 5 (qnat 10) "x" "c" "deposit",
    mkRow 2024 1 6 (qnat 10) "x" "c" "deposit", mkRow 2024 1 7 (qnat 10) "x" "c" "deposit",
    mkRow 2024 1 8 (qnat 10) "x" "c" "deposit", mkRow 2024 1 9 (qnat 10) "x" "c" "deposit",
    mkRow 2024 1 10 (qnat 10) "x" "c" "deposit"], true, true, false, false, true, []⟩

/-- Witness for C9: each boundary conjunct instantiated at concrete data whose
statistic sits exactly on the threshold; every hypothesis is discharged by
`decide` on the executable statistics plus `norm_num` for the rational
equation. -/
theorem C9_boundary_exclusivity_witness :
    detect_round_number_patterns c9roundDf "A" 0 = .ok [] ∧
    thresholdAlert c9thDf "A" 0 10000 = [] ∧
    detect_threshold_avoidance c9thDf "A" 0 = .ok [] ∧
    detect_unusual_counterparties c9cpDf "A" 0 = .ok [] ∧
    detect_suspicious_descriptions c9descDf "A" 0 = .ok [] ∧
    detect_unusual_frequency_patterns c9freqDf "A" 0 = .ok ([], c9freqDf) ∧
    detect_end_of_period_activities c9eopDf "A" 0 = .ok ([], eopMutate c9eopDf) ∧
    detect_cash_intensive_patterns c9cashDf "A" 0 = .ok [] ∧
    detect_layering_patterns c9layDf "A" 0 = .ok ([], c9layDf) := by
  refine ⟨?_, ?_, ?_, ?_, ?_, ?_, ?_, ?_, ?_⟩
  · refine C9_boundary_exclusivity.1 c9roundDf "A" 0 rfl ?_
    have h1 : (roundTxns c9roundDf).length = 12 := by decide
    have h2 : c9roundDf.rows.length = 20 := by decide
    rw [h1, h2]
    norm_num
  · exact C9_boundary_exclusivity.2.1 c9thDf "A" 0 10000 (by decide)
  · exact C9_boundary_exclusivity.2.2.1 c9thDf "A" 0 rfl (by decide)
  · refine C9_boundary_exclusivity.2.2.2.1 c9cpDf "A" 0 rfl rfl ("A", qnat 100)
      (by decide) ?_
    have h1 : sumAmounts c9cpDf.rows = qnat 200 := by decide
    rw [h1, qnat_eq, qnat_eq]
    norm_num
  · refine C9_boundary_exclusivity.2.2.2.2.1 c9descDf "A" 0 rfl ?_ (by decide)
    have h1 : (vagueTxns c9descDf).length = 3 := by decide
    have h2 : c9descDf.rows.length = 10 := by decide
    rw [h1, h2]
    norm_num
  · refine C9_boundary_exclusivity.2.2.2.2.2.1 c9freqDf "A" 0 rfl ?_
    have h1 : recentActivityCount c9freqDf = 2 := by decide
    have h2 : c9freqDf.rows.length = 5 := by decide
    rw [h1, h2]
    norm_num
  · refine C9_boundary_exclusivity.2.2.2.2.2.2.1 c9eopDf "A" 0 rfl ?_ ?_
    · have h1 : (endOfMonthTxns (eopMutate c9eopDf)).length = 5 := by decide
      have h2 : c9eopDf.rows.length = 20 := by decide
      rw [h1, h2]
      norm_num
    · have h1 : (quarterEndTxns (eopMutate c9eopDf)).length = 8 := by decide
      have h2 : c9eopDf.rows.length = 20 := by decide
      rw [h1, h2]
      norm_num
  · refine C9_boundary_exclusivity.2.2.2.2.2.2.2.1 c9cashDf "A" 0 rfl rfl ?_ ?_
    · have h1 : (cashTxns c9cashDf).length = 3 := by decide
      have h2 : c9cashDf.rows.length = 10 := by decide
      rw [h1, h2]
      norm_num
    · have h1 : sumAmounts (cashTxns c9cashDf) = qnat 12 := by decide
      have h2 : sumAmounts c9cashDf.rows = qnat 30 := by decide
      rw [h1, h2, qnat_eq, qnat_eq]
      norm_num
  · refine C9_boundary_exclusivity.2.2.2.2.2.2.2.2 c9layDf "A" 0 rfl rfl rfl ?_
    have h1 : (sameDayBothDays c9layDf).length = 3 := by decide
    have h2 : (activeDays c9layDf).length = 10 := by decide
    rw [h1, h2]
    norm_num

/-! ## Exact-match typing of the layering detector (claim C10) -/

theorem layering_requires_exact_types (df : DataFrame) (account_id : String) (now : Nat)
    (hd : df.hasDate = true) (ht : df.hasTransactionType = true) (ha : df.hasAmount = true)
    (h : "deposit" ∉ df.rows.map Row.transaction_type ∨
      "withdrawal" ∉ df.rows.map Row.transaction_type) :
    detect_layering_patterns df account_id now = .ok ([], df) := by
  rw [detect_layering_patterns]
  have hw : ¬ ("deposit" ∈ df.rows.map Row.transaction_type ∧
      "withdrawal" ∈ df.rows.map Row.transaction_type) := by
    rcases h with h | h
    · exact fun hc => h hc.1
    · exact fun hc => h hc.2
  simp only [hd, ht, DataFrame.amountCol, ha, Bool.and_self, if_true]
  simp [hw]
  intro x hx hdx y hy hwy
  exact absurd ⟨List.mem_map.mpr ⟨x, hx, hdx⟩, List.mem_map.mpr ⟨y, hy, hwy⟩⟩ hw

/-- C10 example frame: capitalized Deposit/Withdrawal on three days, every
active day having both directions of activity. -/
def c10df : DataFrame :=
  ⟨[mkRow 2024 1 1 (qnat 10) "x" "c" "Deposit", mkRow 2024 1 1 (qnat 10) "x" "c" "Withdrawal",
    mkRow 2024 1 2 (qnat 10) "x" "c" "Deposit", mkRow 2024 1 2 (qnat 10) "x" "c" "Withdrawal",
    mkRow 2024 1 3 (qnat 10) "x" "c" "Deposit", mkRow 2024 1 3 (qnat 10) "x" "c" "Withdrawal"],
   true, true, false, false, true, []⟩

/-- C10: the Layering Detector keys its pivot columns by exact, case-sensitive
equality with "deposit" and "withdrawal": whenever either exact string is
absent from the transaction_type values, it returns no alerts, regardless of
how many days have both directions — in particular on the capitalized
Deposit/Withdrawal frame with every day double-sided.  By contrast, the
Cash-Intensity Detector's matcher is case-insensitive and accepts
"Withdrawal". -/
theorem C10_layering_exact_type_match :
    (∀ (df : DataFrame) (account_id : String) (now : Nat),
      df.hasDate = true → df.hasTransactionType = true → df.hasAmount = true →
      ("deposit" ∉ df.rows.map Row.transaction_type ∨
        "withdrawal" ∉ df.rows.map Row.transaction_type) →
      detect_layering_patterns df account_id now = .ok ([], df)) ∧
    cashLike "Withdrawal" = true ∧
    (∀ d ∈ activeDays c10df, 0 < sumAmounts (c10df.rows.filter (fun r =>
      decide (r.date = d) && decide (lowerStr r.transaction_type = "deposit"))) ∧
      0 < sumAmounts (c10df.rows.filter (fun r =>
        decide (r.date = d) && decide (lowerStr r.transaction_type = "withdrawal")))) ∧
    detect_layering_patterns c10df "A" 0 = .ok ([], c10df) :=
  ⟨layering_requires_exact_types, by decide, by decide, by decide⟩

/-- Witness for C10: the exact-match conjunct applied at the capitalized
frame, with the column-presence hypotheses discharged by `rfl` and the
missing-exact-string hypothesis by `decide`. -/
theorem C10_layering_exact_type_match_witness :
    detect_layering_patterns c10df "B" 1 = .ok ([], c10df) :=
  C10_layering_exact_type_match.1 c10df "B" 1 rfl rfl rfl (Or.inl (by decide))

/-! ## Determinism of the reporter (claim C6) -/

/-- The fields of an alert the report actually renders: everything except
`account_id` (the report uses the separately passed account id) and
`timestamp` (never printed). -/
def reportView (a : Alert) : String × RiskLevel × ℚ × String × ℚ × List String :=
  (a.alert_type, a.risk_level, a.confidence_score, a.description,
   a.amount_involved, a.evidence)

theorem renderAlert_congr {a b : Alert} (h : reportView a = reportView b) :
    renderAlert a = renderAlert b := by
  obtain ⟨a1, a2, a3, a4, a5, a6, a7, a8⟩ := a
  obtain ⟨b1, b2, b3, b4, b5, b6, b7, b8⟩ := b
  simp only [reportView, Prod.mk.injEq] at h
  obtain ⟨h2, h3, h4, h5, h8, h6⟩ := h
  simp [renderAlert, h2, h3, h4, h5, h6, h8]

theorem riskLevel_of_view {a b : Alert} (h : reportView a = reportView b) :
    a.risk_level = b.risk_level := by
  have := congrArg (fun p => p.2.1) h
  exact this

theorem filterRisk_congr (lvl : RiskLevel) (as : List Alert) : ∀ (bs : List Alert),
    as.map reportView = bs.map reportView →
    (as.filter (fun a => decide (a.risk_level = lvl))).map renderAlert =
      (bs.filter (fun a => decide (a.risk_level = lvl))).map renderAlert ∧
    (as.filter (fun a => decide (a.risk_level = lvl))).length =
      (bs.filter (fun a => decide (a.risk_level = lvl))).length := by
  induction as with
  | nil =>
    intro bs h
    have hb : bs = [] := by
      cases bs with
      | nil => rfl
      | cons b bs' => simp at h
    subst hb
    exact ⟨rfl, rfl⟩
  | cons a as ih =>
    intro bs h
    cases bs with
    | nil => simp at h
    | cons b bs' =>
      simp only [List.map_cons, List.cons.injEq] at h
      obtain ⟨hv, ht⟩ := h
      have hrisk := riskLevel_of_view hv
      obtain ⟨ihm, ihl⟩ := ih bs' ht
      by_cases hl : a.risk_level = lvl
      · have hbl : b.risk_level = lvl := hrisk ▸ hl
        simp [List.filter_cons, hl, hbl, ihm, ihl, renderAlert_congr hv]
      · have hbl : ¬ b.risk_level = lvl := fun hb => hl (hrisk.symm ▸ hb)
        simp [List.filter_cons, hl, hbl, ihm, ihl]

theorem renderSection_congr (lvl : RiskLevel) (as bs : List Alert)
    (h : as.map reportView = bs.map reportView) :
    renderSection as lvl = renderSection bs lvl := by
  obtain ⟨hm, hlen⟩ := filterRisk_congr lvl as bs h
  rw [renderSection, renderSection]
  have hnil : (as.filter (fun a => decide (a.risk_level = lvl)) = []) ↔
      (bs.filter (fun a => decide (a.risk_level = lvl)) = []) := by
    rw [← List.length_eq_zero, ← List.length_eq_zero, hlen]
  by_cases h0 : as.filter (fun a => decide (a.risk_level = lvl)) = []
  · rw [if_pos h0, if_pos (hnil.mp h0)]
  · rw [if_neg h0, if_neg (fun hb => h0 (hnil.mpr hb)), hlen, hm]

theorem generate_report_congr (as bs : List Alert) (account_id analysis_date : String)
    (h : as.map reportView = bs.map reportView) :
    generate_report as account_id analysis_date =
      generate_report bs account_id analysis_date := by
  have hlen : as.length = bs.length := by
    have := congrArg List.length h
    simpa using this
  have hnil : (as = []) ↔ (bs = []) := by
    rw [← List.length_eq_zero, ← List.length_eq_zero, hlen]
  rw [generate_report, generate_report, hlen]
  by_cases h0 : as = []
  · rw [if_pos h0, if_pos (hnil.mp h0)]
  · rw [if_neg h0, if_neg (fun hb => h0 (hnil.mpr hb))]
    simp only [List.map_cons, List.map_nil]
    rw [renderSection_congr RiskLevel.CRITICAL as bs h, renderSection_congr RiskLevel.HIGH as bs h,
      renderSection_congr RiskLevel.MEDIUM as bs h, renderSection_congr RiskLevel.LOW as bs h]

/-- C6: with the generation time passed in (the shallow embedding of the
source's `datetime.now()` read), the Reporter is a deterministic function of
the rendered alert fields, the account id and that time: two alert lists that
agree on the rendered view give byte-identical reports, and in particular
resetting every alert's creation timestamp (the only wall-clock data inside an
Alert) never changes the report, so repeated calls on the same ordered list
with a fixed injected timestamp produce identical strings. -/
theorem C6_reporter_deterministic :
    (∀ (as bs : List Alert) (account_id analysis_date : String),
      as.map reportView = bs.map reportView →
      generate_report as account_id analysis_date =
        generate_report bs account_id analysis_date) ∧
    (∀ (as : List Alert) (account_id analysis_date : String) (t : Nat),
      generate_report (as.map (fun a => { a with timestamp := t })) account_id analysis_date =
        generate_report as account_id analysis_date) := by
  refine ⟨generate_report_congr, ?_⟩
  intro as account_id analysis_date t
  apply generate_report_congr
  rw [List.map_map]
  rfl

/-- Witness for C6: two single-alert lists differing only in the alert
creation timestamp render identically; the view-equality hypothesis is
checked by `decide`. -/
theorem C6_reporter_deterministic_witness :
    generate_report [⟨"A", "Layering Pattern", RiskLevel.HIGH, qnat 85, "d", ["e1", "e2"], 1, qnat 5⟩]
        "ACC-1" "2024-06-30 12:00:00" =
      generate_report [⟨"B", "Layering Pattern", RiskLevel.HIGH, qnat 85, "d", ["e1", "e2"], 2, qnat 5⟩]
        "ACC-1" "2024-06-30 12:00:00" :=
  C6_reporter_deterministic.1 _ _ "ACC-1" "2024-06-30 12:00:00" rfl

/-! ## Missing-column behaviour (claims C2 and C3) -/

theorem detect_round_missing_amount (df : DataFrame) (account_id : String) (now : Nat)
    (h : df.hasAmount = false) :
    detect_round_number_patterns df account_id now = .error "KeyError: amount" := by
  rw [detect_round_number_patterns]
  simp [DataFrame.amountCol, h]

theorem detect_threshold_missing_amount (df : DataFrame) (account_id : String) (now : Nat)
    (h : df.hasAmount = false) :
    detect_threshold_avoidance df account_id now = .error "KeyError: amount" := by
  rw [detect_threshold_avoidance]
  simp [DataFrame.amountCol, h]

theorem detect_descriptions_missing_column (df : DataFrame) (account_id : String) (now : Nat)
    (h : df.hasDescription = false) :
    detect_suspicious_descriptions df account_id now = .ok [] := by
  rw [detect_suspicious_descriptions]
  simp [h]

theorem detect_frequency_missing_column (df : DataFrame) (account_id : String) (now : Nat)
    (h : df.hasDate = false) :
    detect_unusual_frequency_patterns df account_id now = .ok ([], df) := by
  rw [detect_unusual_frequency_patterns]
  simp [h]

theorem detect_eop_missing_column (df : DataFrame) (account_id : String) (now : Nat)
    (h : df.hasDate = false) :
    detect_end_of_period_activities df account_id now = .ok ([], df) := by
  rw [detect_end_of_period_activities]
  simp [h]

theorem detect_counterparties_missing_column (df : DataFrame) (account_id : String) (now : Nat)
    (h : df.hasCounterparty = false) :
    detect_unusual_counterparties df account_id now = .ok [] := by
  rw [detect_unusual_counterparties]
  simp [h]

theorem detect_cash_missing_column (df : DataFrame) (account_id : String) (now : Nat)
    (h : df.hasTransactionType = false) :
    detect_cash_intensive_patterns df account_id now = .ok [] := by
  rw [detect_cash_intensive_patterns]
  simp [h]

theorem detect_layering_missing_column (df : DataFrame) (account_id : String) (now : Nat)
    (h : df.hasDate = false ∨ df.hasTransactionType = false) :
    detect_layering_patterns df account_id now = .ok ([], df) := by
  rw [detect_layering_patterns]
  rcases h with h | h <;> simp [h]

/-- C3 counterexample frame: one row, no amount column, the other columns
present. -/
def c3cexDf : DataFrame :=
  ⟨[mkRow 2024 1 1 (qnat 10) "weekly transfer" "c" "t"], false, true, true, true, true, []⟩

/-- Counterexample to C3: on a dataset without an `amount` column, the
Round-Number Detector and the Threshold-Avoidance Detector do not return an
empty alert list — both raise a KeyError, because they access the amount
column without any required-column check. -/
theorem C3_counterexample_missing_amount_raises :
    detect_round_number_patterns c3cexDf "A" 0 = .error "KeyError: amount" ∧
    detect_threshold_avoidance c3cexDf "A" 0 = .error "KeyError: amount" ∧
    detect_round_number_patterns c3cexDf "A" 0 ≠ .ok [] ∧
    detect_threshold_avoidance c3cexDf "A" 0 ≠ .ok [] := by
  refine ⟨by decide, by decide, by decide, by decide⟩

/-- C3 as amended: the six detectors that check for their required columns
(description, the two date-based ones, counterparty, transaction_type, and
layering needing both date and transaction_type) no-op when the column is
absent, but the Round-Number and Threshold-Avoidance detectors access
`amount` unconditionally and raise a KeyError when it is absent. -/
theorem C3_missing_column_amended :
    (∀ (df : DataFrame) (account_id : String) (now : Nat), df.hasDescription = false →
      detect_suspicious_descriptions df account_id now = .ok []) ∧
    (∀ (df : DataFrame) (account_id : String) (now : Nat), df.hasDate = false →
      detect_unusual_frequency_patterns df account_id now = .ok ([], df)) ∧
    (∀ (df : DataFrame) (account_id : String) (now : Nat), df.hasDate = false →
      detect_end_of_period_activities df account_id now = .ok ([], df)) ∧
    (∀ (df : DataFrame) (account_id : String) (now : Nat), df.hasCounterparty = false →
      detect_unusual_counterparties df account_id now = .ok []) ∧
    (∀ (df : DataFrame) (account_id : String) (now : Nat), df.hasTransactionType = false →
      detect_cash_intensive_patterns df account_id now = .ok []) ∧
    (∀ (df : DataFrame) (account_id : String) (now : Nat),
      df.hasDate = false ∨ df.hasTransactionType = false →
      detect_layering_patterns df account_id now = .ok ([], df)) ∧
    (∀ (df : DataFrame) (account_id : String) (now : Nat), df.hasAmount = false →
      detect_round_number_patterns df account_id now = .error "KeyError: amount") ∧
    (∀ (df : DataFrame) (account_id : String) (now : Nat), df.hasAmount = false →
      detect_threshold_avoidance df account_id now = .error "KeyError: amount") :=
  ⟨detect_descriptions_missing_column, detect_frequency_missing_column,
   detect_eop_missing_column, detect_counterparties_missing_column,
   detect_cash_missing_column, detect_layering_missing_column,
   detect_round_missing_amount, detect_threshold_missing_amount⟩

/-- A frame with no columns at all (all absent), used to instantiate the
missing-column conjuncts. -/
def cNoColsDf : DataFrame :=
  ⟨[mkRow 2024 1 1 (qnat 10) "x" "c" "t"], false, false, false, false, false, []⟩

/-- Witness for C3 as amended: all eight conjuncts instantiated on a frame
with every named column absent; each column-absence hypothesis holds by
`rfl`. -/
theorem C3_missing_column_amended_witness :
    detect_suspicious_descriptions cNoColsDf "A" 0 = .ok [] ∧
    detect_unusual_frequency_patterns cNoColsDf "A" 0 = .ok ([], cNoColsDf) ∧
    detect_end_of_period_activities cNoColsDf "A" 0 = .ok ([], cNoColsDf) ∧
    detect_unusual_counterparties cNoColsDf "A" 0 = .ok [] ∧
    detect_cash_intensive_patterns cNoColsDf "A" 0 = .ok [] ∧
    detect_layering_patterns cNoColsDf "A" 0 = .ok ([], cNoColsDf) ∧
    detect_round_number_patterns cNoColsDf "A" 0 = .error "KeyError: amount" ∧
    detect_threshold_avoidance cNoColsDf "A" 0 = .error "KeyError: amount" :=
  ⟨C3_missing_column_amended.1 cNoColsDf "A" 0 rfl,
   C3_missing_column_amended.2.1 cNoColsDf "A" 0 rfl,
   C3_missing_column_amended.2.2.1 cNoColsDf "A" 0 rfl,
   C3_missing_column_amended.2.2.2.1 cNoColsDf "A" 0 rfl,
   C3_missing_column_amended.2.2.2.2.1 cNoColsDf "A" 0 rfl,
   C3_missing_column_amended.2.2.2.2.2.1 cNoColsDf "A" 0 (Or.inl rfl),
   C3_missing_column_amended.2.2.2.2.2.2.1 cNoColsDf "A" 0 rfl,
   C3_missing_column_amended.2.2.2.2.2.2.2 cNoColsDf "A" 0 rfl⟩

/-! ## Error propagation through the orchestrator (claim C2) -/

/-- C2 counterexample frame: six identically described rows (enough for the
repetition check to fire), with the amount column absent so that the very
first detector raises. -/
def c2cexDf : DataFrame :=
  ⟨(List.range 6).map (fun _ => mkRow 2024 1 1 (qnat 10) "weekly transfer" "c" "t"),
   false, false, true, false, false, []⟩

/-- Counterexample to C2: when one detector raises (here the round-number
detector, KeyError on the missing amount column), `analyze_account` does not
return the other detectors' alerts — it propagates the error, even though the
description detector alone would have produced an alert on this data. -/
theorem C2_counterexample_error_propagates :
    analyze_account c2cexDf (some "ACC-1") 7 = .error "KeyError: amount" ∧
    detect_suspicious_descriptions c2cexDf "ACC-1" 7 =
      .ok [⟨"ACC-1", "Repeated Transaction Descriptions", RiskLevel.MEDIUM, qnat 60,
        "Multiple transactions with identical descriptions",
        ["Description \x27weekly transfer\x27 appears 6 times"], 7, 0⟩] := by
  refine ⟨by decide, by decide⟩

/-- C2 as amended: the Orchestrator does not isolate detector failures; the
source wraps no detector call in a handler, so the first error aborts the
whole analysis.  In particular, whenever the amount column is absent, the
first detector's KeyError is the overall result of `analyze_account`. -/
theorem C2_orchestrator_amended (df : DataFrame) (account_info : Option String) (now : Nat)
    (h : df.hasAmount = false) :
    analyze_account df account_info now = .error "KeyError: amount" := by
  simp only [analyze_account]
  rw [detect_round_missing_amount df (account_info.getD "unknown") now h]

/-- Witness for C2 as amended: the propagation theorem applied at the
six-row no-amount frame, the flag hypothesis discharged by `rfl`. -/
theorem C2_orchestrator_amended_witness :
    analyze_account c2cexDf none 9 = .error "KeyError: amount" :=
  C2_orchestrator_amended c2cexDf none 9 rfl

/-! ## Empty-dataset behaviour (claim C4) -/

theorem detect_round_empty (df : DataFrame) (account_id : String) (now : Nat)
    (hr : df.rows = []) (ha : df.hasAmount = true) :
    detect_round_number_patterns df account_id now = .ok [] := by
  rw [detect_round_characterization df account_id now ha]
  simp [hr]

theorem detect_descriptions_empty (df : DataFrame) (account_id : String) (now : Nat)
    (hr : df.rows = []) :
    detect_suspicious_descriptions df account_id now = .ok [] := by
  rw [detect_suspicious_descriptions]
  cases hD : df.hasDescription
  · simp
  · have hc : ¬ (qnat (0 : Nat) > qmul (qnat (0 : Nat)) (qmk 3 10)) := by decide
    simp [vagueTxns, hr, descriptionCounts, uniqueFirst, sortCountsDesc, hc]

theorem detect_frequency_empty (df : DataFrame) (account_id : String) (now : Nat)
    (hr : df.rows = []) :
    detect_unusual_frequency_patterns df account_id now = .ok ([], df) := by
  rw [detect_unusual_frequency_patterns]
  cases hD : df.hasDate
  · simp
  · have hrc : recentActivityCount df = 0 := by
      rw [recentActivityCount, hr]
      rfl
    have hc : ¬ (qnat (0 : Nat) > qmul (qnat (0 : Nat)) (qmk 4 10)) := by decide
    simp [hrc, hr, hc]

theorem detect_threshold_empty (df : DataFrame) (account_id : String) (now : Nat)
    (hr : df.rows = []) (ha : df.hasAmount = true) :
    detect_threshold_avoidance df account_id now = .ok [] := by
  rw [detect_threshold_characterization df account_id now ha]
  have h1 : ∀ t, near_threshold_txns df t = [] := fun t => by
    rw [near_threshold_txns, hr]
    rfl
  rw [thresholdAlert_silent _ _ _ _ (by rw [h1]; simp),
    thresholdAlert_silent _ _ _ _ (by rw [h1]; simp),
    thresholdAlert_silent _ _ _ _ (by rw [h1]; simp),
    thresholdAlert_silent _ _ _ _ (by rw [h1]; simp)]
  rfl

theorem detect_eop_empty_hasDate (df : DataFrame) (account_id : String) (now : Nat)
    (hD : df.hasDate = true) (hr : df.rows = []) :
    detect_end_of_period_activities df account_id now = .ok ([], eopMutate df) := by
  rw [detect_end_of_period_activities]
  have h1 : endOfMonthTxns (eopMutate df) = [] := by
    simp [endOfMonthTxns, eopMutate_rows, hr]
  have h2 : quarterEndTxns (eopMutate df) = [] := by
    simp [quarterEndTxns, eopMutate_rows, hr]
  have hc1 : ¬ (qnat (0 : Nat) > qmul (qnat (0 : Nat)) (qmk 25 100)) := by decide
  have hc2 : ¬ (qnat (0 : Nat) > qmul (qnat (0 : Nat)) (qmk 4 10)) := by decide
  simp [hD, h1, h2, eopMutate_rows, hr, hc1, hc2]

theorem detect_counterparties_empty (df : DataFrame) (account_id : String) (now : Nat)
    (hr : df.rows = []) (ha : df.hasAmount = true) :
    detect_unusual_counterparties df account_id now = .ok [] := by
  rw [detect_unusual_counterparties]
  cases hC : df.hasCounterparty
  · simp
  · have ht : counterpartyTotals df = [] := by
      rw [counterpartyTotals, hr]
      rfl
    simp [DataFrame.amountCol, ha, ht, topByTotal]

theorem detect_cash_empty (df : DataFrame) (account_id : String) (now : Nat)
    (hr : df.rows = []) :
    detect_cash_intensive_patterns df account_id now = .ok [] := by
  rw [detect_cash_intensive_patterns]
  cases hT : df.hasTransactionType
  · simp
  · have hct : cashTxns df = [] := by
      rw [cashTxns, hr]
      rfl
    simp [hct]

theorem detect_layering_empty (df : DataFrame) (account_id : String) (now : Nat)
    (hr : df.rows = []) (ha : df.hasAmount = true) :
    detect_layering_patterns df account_id now = .ok ([], df) := by
  rw [detect_layering_patterns]
  cases hD : df.hasDate
  · simp
  · cases hT : df.hasTransactionType
    · simp
    · simp [DataFrame.amountCol, ha, hr]

theorem analyze_account_empty (df : DataFrame) (account_info : Option String) (now : Nat)
    (hr : df.rows = []) (ha : df.hasAmount = true) :
    analyze_account df account_info now = .ok [] := by
  simp only [analyze_account]
  rw [detect_round_empty df _ now hr ha, detect_descriptions_empty df _ now hr,
    detect_frequency_empty df _ now hr]
  dsimp only
  rw [detect_threshold_empty df _ now hr ha]
  cases hD : df.hasDate
  · rw [detect_eop_missing_column df _ now hD]
    dsimp only
    rw [detect_counterparties_empty df _ now hr ha, detect_cash_empty df _ now hr,
      detect_layering_empty df _ now hr ha]
    rfl
  · rw [detect_eop_empty_hasDate df _ now hD hr]
    dsimp only
    have hr2 : (eopMutate df).rows = [] := by rw [eopMutate_rows, hr]
    have ha2 : (eopMutate df).hasAmount = true := ha
    rw [detect_counterparties_empty (eopMutate df) _ now hr2 ha2,
      detect_cash_empty (eopMutate df) _ now hr2,
      detect_layering_empty (eopMutate df) _ now hr2 ha2]
    rfl

/-- C4 counterexample frame: zero rows, every column except `amount`
present. -/
def c4cexDf : DataFrame := ⟨[], false, true, true, true, true, []⟩

/-- Counterexample to C4: on a 0-row dataset whose column set lacks `amount`,
the Orchestrator does not return an empty alert list — the round-number
detector's unguarded amount access raises even on an empty frame, so the
empty-dataset guarantee does not hold for every combination of present
columns. -/
theorem C4_counterexample_empty_without_amount :
    c4cexDf.rows = [] ∧
    analyze_account c4cexDf (some "ACC-1") 0 = .error "KeyError: amount" ∧
    analyze_account c4cexDf (some "ACC-1") 0 ≠ .ok [] := by
  refine ⟨rfl, by decide, by decide⟩

/-- C4 as amended: on the empty dataset, provided the `amount` column is
present (the two amount-based detectors read it unconditionally), every
detector returns no alerts with no division by zero or out-of-bounds access,
the Orchestrator returns an empty alert list, and the Reporter renders the
header plus the "No suspicious patterns detected." line. -/
theorem C4_empty_dataset_amended (df : DataFrame) (account_info : Option String)
    (rid d : String) (now : Nat) (hr : df.rows = []) (ha : df.hasAmount = true) :
    detect_round_number_patterns df rid now = .ok [] ∧
    detect_suspicious_descriptions df rid now = .ok [] ∧
    (∃ df2, detect_unusual_frequency_patterns df rid now = .ok ([], df2)) ∧
    detect_threshold_avoidance df rid now = .ok [] ∧
    (∃ df2, detect_end_of_period_activities df rid now = .ok ([], df2)) ∧
    detect_unusual_counterparties df rid now = .ok [] ∧
    detect_cash_intensive_patterns df rid now = .ok [] ∧
    (∃ df2, detect_layering_patterns df rid now = .ok ([], df2)) ∧
    analyze_account df account_info now = .ok [] ∧
    generate_report [] rid d =
      reportHeader 0 rid d ++ "No suspicious patterns detected.\n" := by
  refine ⟨detect_round_empty df rid now hr ha, detect_descriptions_empty df rid now hr,
    ⟨df, detect_frequency_empty df rid now hr⟩, detect_threshold_empty df rid now hr ha,
    ?_, detect_counterparties_empty df rid now hr ha, detect_cash_empty df rid now hr,
    ⟨df, detect_layering_empty df rid now hr ha⟩,
    analyze_account_empty df account_info now hr ha, rfl⟩
  cases hD : df.hasDate
  · exact ⟨df, detect_eop_missing_column df rid now hD⟩
  · exact ⟨eopMutate df, detect_eop_empty_hasDate df rid now hD hr⟩

/-- C4 amended witness: the empty frame with all columns present; both
hypotheses hold by `rfl`. -/
theorem C4_empty_dataset_amended_witness :
    detect_round_number_patterns ⟨[], true, true, true, true, true, []⟩ "ACC-9" 4 = .ok [] ∧
    detect_suspicious_descriptions ⟨[], true, true, true, true, true, []⟩ "ACC-9" 4 = .ok [] ∧
    (∃ df2, detect_unusual_frequency_patterns ⟨[], true, true, true, true, true, []⟩ "ACC-9" 4 =
      .ok ([], df2)) ∧
    detect_threshold_avoidance ⟨[], true, true, true, true, true, []⟩ "ACC-9" 4 = .ok [] ∧
    (∃ df2, detect_end_of_period_activities ⟨[], true, true, true, true, true, []⟩ "ACC-9" 4 =
      .ok ([], df2)) ∧
    detect_unusual_counterparties ⟨[], true, true, true, true, true, []⟩ "ACC-9" 4 = .ok [] ∧
    detect_cash_intensive_patterns ⟨[], true, true, true, true, true, []⟩ "ACC-9" 4 = .ok [] ∧
    (∃ df2, detect_layering_patterns ⟨[], true, true, true, true, true, []⟩ "ACC-9" 4 =
      .ok ([], df2)) ∧
    analyze_account ⟨[], true, true, true, true, true, []⟩ (some "ACC-9") 4 = .ok [] ∧
    generate_report [] "ACC-9" "2024-12-31 23:59:59" =
      reportHeader 0 "ACC-9" "2024-12-31 23:59:59" ++ "No suspicious patterns detected.\n" :=
  C4_empty_dataset_amended ⟨[], true, true, true, true, true, []⟩ (some "ACC-9")
    "ACC-9" "2024-12-31 23:59:59" 4 rfl rfl

/-! ## Frame effects of the detectors (claim C5) -/

theorem map_fst_ite_pair (c : Prop) [Decidable c] (A : List Alert) (F1 F2 G1 G2 : DataFrame) :
    (Except.map Prod.fst (if c then Except.ok (A, F1) else Except.ok ([], G1)) :
      Except String (List Alert)) =
    Except.map Prod.fst (if c then Except.ok (A, F2) else Except.ok ([], G2)) := by
  by_cases h : c <;> simp [h, Except.map]

theorem map_fst_eop_shape (c : Prop) [Decidable c] (X : Except String (List Alert))
    (A2 : List Alert) (F1 F2 G1 G2 : DataFrame) :
    (Except.map Prod.fst (if c then
        (match X with
         | .error e => .error e
         | .ok a1 => .ok (a1 ++ A2, F1))
      else Except.ok ([], G1)) : Except String (List Alert)) =
    Except.map Prod.fst (if c then
        (match X with
         | .error e => .error e
         | .ok a1 => .ok (a1 ++ A2, F2))
      else Except.ok ([], G2)) := by
  by_cases h : c <;> cases X <;> simp [h, Except.map]

theorem freq_alerts_ignore_extraCols (df : DataFrame) (c : List String)
    (account_id : String) (now : Nat) :
    (detect_unusual_frequency_patterns { df with extraCols := c } account_id now).map Prod.fst =
      (detect_unusual_frequency_patterns df account_id now).map Prod.fst := by
  obtain ⟨r, hA, hD, hDe, hC, hT, ex⟩ := df
  rw [detect_unusual_frequency_patterns, detect_unusual_frequency_patterns]
  dsimp only [recentActivityCount]
  exact map_fst_ite_pair _ _ _ _ _ _

theorem eop_alerts_ignore_extraCols (df : DataFrame) (c : List String)
    (account_id : String) (now : Nat) :
    (detect_end_of_period_activities { df with extraCols := c } account_id now).map Prod.fst =
      (detect_end_of_period_activities df account_id now).map Prod.fst := by
  obtain ⟨r, hA, hD, hDe, hC, hT, ex⟩ := df
  rw [detect_end_of_period_activities, detect_end_of_period_activities]
  dsimp only [eopMutate, endOfMonthTxns, quarterEndTxns, DataFrame.amountCol]
  exact map_fst_eop_shape _ _ _ _ _ _ _

theorem layering_alerts_ignore_extraCols (df : DataFrame) (c : List String)
    (account_id : String) (now : Nat) :
    (detect_layering_patterns { df with extraCols := c } account_id now).map Prod.fst =
      (detect_layering_patterns df account_id now).map Prod.fst := by
  obtain ⟨r, hA, hD, hDe, hC, hT, ex⟩ := df
  rw [detect_layering_patterns, detect_layering_patterns]
  cases hD
  · rfl
  · cases hT
    · rfl
    · cases hA
      · rfl
      · simp only [DataFrame.amountCol, reduceIte, sameDayBothDays, activeDays,
          depositSumOn, withdrawalSumOn]
        split <;> rename_i h2
        · split <;> rename_i h3
          · split <;> rename_i h4 <;> rfl
          · simp [h3, Except.map]
        · simp [h2, Except.map]

theorem freq_frame_unchanged (df : DataFrame) (account_id : String) (now : Nat)
    (a : List Alert) (df2 : DataFrame)
    (h : detect_unusual_frequency_patterns df account_id now = .ok (a, df2)) : df2 = df := by
  rw [detect_unusual_frequency_patterns] at h
  by_cases hD : df.hasDate = true
  · rw [if_pos hD] at h
    simp only [Except.ok.injEq, Prod.mk.injEq] at h
    exact h.2.symm
  · rw [if_neg hD] at h
    simp only [Except.ok.injEq, Prod.mk.injEq] at h
    exact h.2.symm

theorem layering_frame_unchanged (df : DataFrame) (account_id : String) (now : Nat)
    (a : List Alert) (df2 : DataFrame)
    (h : detect_layering_patterns df account_id now = .ok (a, df2)) : df2 = df := by
  rw [detect_layering_patterns] at h
  split at h
  · cases hAc : df.amountCol with
    | error e =>
      rw [hAc] at h
      simp at h
    | ok l =>
      rw [hAc] at h
      dsimp only at h
      split at h
      · split at h <;> (simp only [Except.ok.injEq, Prod.mk.injEq] at h; exact h.2.symm)
      · simp only [Except.ok.injEq, Prod.mk.injEq] at h
        exact h.2.symm
  · simp only [Except.ok.injEq, Prod.mk.injEq] at h
    exact h.2.symm

theorem eop_frame_is_eopMutate (df : DataFrame) (account_id : String) (now : Nat)
    (hD : df.hasDate = true) (a : List Alert) (df2 : DataFrame)
    (h : detect_end_of_period_activities df account_id now = .ok (a, df2)) :
    df2 = eopMutate df := by
  rw [detect_end_of_period_activities, if_pos hD] at h
  dsimp only at h
  split at h
  · simp at h
  · simp only [Except.ok.injEq, Prod.mk.injEq] at h
    exact h.2.symm

/-- C5 counterexample frame: a single mid-month transaction with the date
column present; the end-of-period detector emits no alerts on it but still
writes its derived columns into the shared frame. -/
def c5df : DataFrame :=
  ⟨[mkRow 2024 1 5 (qnat 10) "x" "c" "t"], true, true, false, false, false, []⟩

/-- Counterexample to C5: running the end-of-period detector does not leave
the input frame unchanged — it returns the frame extended with the derived
`day_of_month` and `month` columns, which subsequent detectors receive. -/
theorem C5_counterexample_frame_mutated :
    detect_end_of_period_activities c5df "A" 0 = .ok ([], eopMutate c5df) ∧
    eopMutate c5df ≠ c5df ∧
    (eopMutate c5df).extraCols = ["day_of_month", "month"] ∧
    c5df.extraCols = [] := by
  refine ⟨by decide, by decide, by decide, rfl⟩

/-- C5 as amended: the round-number, description, threshold, counterparty and
cash detectors take and return no frame at all; the frequency and layering
detectors return the shared frame unchanged; the end-of-period detector
returns it with exactly the `day_of_month` and `month` columns added (rows
and column flags intact).  No detector's alert output depends on the derived
column set, so the alerts each detector produces are unaffected by which
detectors ran before it. -/
theorem C5_detector_frame_effects_amended :
    (∀ df : DataFrame, (eopMutate df).rows = df.rows ∧
      (eopMutate df).hasAmount = df.hasAmount ∧ (eopMutate df).hasDate = df.hasDate ∧
      (eopMutate df).hasDescription = df.hasDescription ∧
      (eopMutate df).hasCounterparty = df.hasCounterparty ∧
      (eopMutate df).hasTransactionType = df.hasTransactionType ∧
      (eopMutate df).extraCols = addCol "month" (addCol "day_of_month" df.extraCols)) ∧
    (∀ (df : DataFrame) (account_id : String) (now : Nat) (a : List Alert) (df2 : DataFrame),
      detect_unusual_frequency_patterns df account_id now = .ok (a, df2) → df2 = df) ∧
    (∀ (df : DataFrame) (account_id : String) (now : Nat) (a : List Alert) (df2 : DataFrame),
      detect_layering_patterns df account_id now = .ok (a, df2) → df2 = df) ∧
    (∀ (df : DataFrame) (account_id : String) (now : Nat), df.hasDate = true →
      ∀ (a : List Alert) (df2 : DataFrame),
      detect_end_of_period_activities df account_id now = .ok (a, df2) → df2 = eopMutate df) ∧
    (∀ (df : DataFrame) (c : List String) (account_id : String) (now : Nat),
      detect_round_number_patterns { df with extraCols := c } account_id now =
        detect_round_number_patterns df account_id now) ∧
    (∀ (df : DataFrame) (c : List String) (account_id : String) (now : Nat),
      detect_suspicious_descriptions { df with extraCols := c } account_id now =
        detect_suspicious_descriptions df account_id now) ∧
    (∀ (df : DataFrame) (c : List String) (account_id : String) (now : Nat),
      detect_threshold_avoidance { df with extraCols := c } account_id now =
        detect_threshold_avoidance df account_id now) ∧
    (∀ (df : DataFrame) (c : List String) (account_id : String) (now : Nat),
      detect_unusual_counterparties { df with extraCols := c } account_id now =
        detect_unusual_counterparties df account_id now) ∧
    (∀ (df : DataFrame) (c : List String) (account_id : String) (now : Nat),
      detect_cash_intensive_patterns { df with extraCols := c } account_id now =
        detect_cash_intensive_patterns df account_id now) ∧
    (∀ (df : DataFrame) (c : List String) (account_id : String) (now : Nat),
      (detect_unusual_frequency_patterns { df with extraCols := c } account_id now).map Prod.fst =
        (detect_unusual_frequency_patterns df account_id now).map Prod.fst) ∧
    (∀ (df : DataFrame) (c : List String) (account_id : String) (now : Nat),
      (detect_end_of_period_activities { df with extraCols := c } account_id now).map Prod.fst =
        (detect_end_of_period_activities df account_id now).map Prod.fst) ∧
    (∀ (df : DataFrame) (c : List String) (account_id : String) (now : Nat),
      (detect_layering_patterns { df with extraCols := c } account_id now).map Prod.fst =
        (detect_layering_patterns df account_id now).map Prod.fst) :=
  ⟨fun df => ⟨rfl, rfl, rfl, rfl, rfl, rfl, rfl⟩,
   freq_frame_unchanged, layering_frame_unchanged, eop_frame_is_eopMutate,
   fun df c account_id now => rfl, fun df c account_id now => rfl,
   fun df c account_id now => rfl, fun df c account_id now => rfl,
   fun df c account_id now => rfl,
   freq_alerts_ignore_extraCols, eop_alerts_ignore_extraCols,
   layering_alerts_ignore_extraCols⟩

/-- Witness for C5 as amended: the frame-shape conjuncts instantiated at
concrete runs whose results are computed by `decide`. -/
theorem C5_detector_frame_effects_amended_witness :
    ((eopMutate c5df).rows = c5df.rows) ∧
    c9freqDf = c9freqDf ∧
    c9layDf = c9layDf ∧
    ((eopMutate c5df) = eopMutate c5df) := by
  refine ⟨(C5_detector_frame_effects_amended.1 c5df).1, ?_, ?_, ?_⟩
  · exact C5_detector_frame_effects_amended.2.1 c9freqDf "A" 0 [] c9freqDf (by decide)
  · exact C5_detector_frame_effects_amended.2.2.1 c9layDf "A" 0 [] c9layDf (by decide)
  · exact C5_detector_frame_effects_amended.2.2.2.1 c5df "A" 0 rfl [] (eopMutate c5df) (by decide)
